import Mathlib

/-!
Verification development for `nhs_shift_booker.py` (NHS Professionals
automatic shift booker).

The file has two parts.

1. A lexical model of Python's tokenizer rules for string literals,
   comments and bracket matching (`pyScan`), applied to the literal text
   of the regions of the source file that are syntactically suspect:
   the `xpath_options` list statement of `navigate_to_shifts`
   (source lines 169-174) and the documentation blocks of
   `search_shifts`, `get_available_shifts` and `book_shift` whose
   `Args:` / `Returns:` lines sit outside any string literal.

2. A shallow embedding of the behaviour of the methods of class
   `NHSShiftBooker`: every fallible browser operation (find element,
   click, navigate) is answered by an explicit environment, `time.sleep`
   and `driver.refresh` are recorded as events, exceptions are modelled
   with `Except`, and the unbounded `while True` loop is run on fuel.
   The definitions follow the Python control flow line by line.
-/

namespace NHSBooker

/-! ## Part 1: lexical model of Python string/comment/bracket scanning -/

/-- Characters that the scanner treats specially, by code point:
double quote (34), single quote (39), newline (10), backslash (92),
hash (35), braces (123/125). -/
def dqC : Char := Char.ofNat 34

def sqC : Char := Char.ofNat 39

def nlC : Char := Char.ofNat 10

def bslC : Char := Char.ofNat 92

def hashC : Char := Char.ofNat 35

def lbraceC : Char := Char.ofNat 123

def rbraceC : Char := Char.ofNat 125

/-- Lexical mode of the Python tokenizer: outside any string (`code`),
inside a comment, or inside one of the four string-literal forms. -/
inductive StrMode
| code
| comment
| single
| double
| tripleS
| tripleD
deriving DecidableEq, Repr

/-- Lexical errors Python's tokenizer reports. -/
inductive ScanErr
| unmatched (c : Char)
| mismatched (o c : Char)
| newlineInString
deriving DecidableEq, Repr

/-- Whether a character opens a bracket pair at code level. -/
def isOpenB (c : Char) : Bool :=
  c = '(' ∨ c = '[' ∨ c = lbraceC

/-- Whether a character closes a bracket pair at code level. -/
def isCloseB (c : Char) : Bool :=
  c = ')' ∨ c = ']' ∨ c = rbraceC

/-- The closing bracket matching an opening one. -/
def closerFor (c : Char) : Char :=
  if c = '(' then ')' else if c = '[' then ']' else rbraceC

/-- Python lexical scan: walks the character list tracking the string
mode and the stack of currently open brackets.  A closing bracket with
an empty stack is Python's `SyntaxError: unmatched ...`; a closing
bracket that does not pair with the top of the stack is
`closing parenthesis does not match`; a newline inside a single- or
double-quoted (non-triple) string is an unterminated string literal. -/
def pyScan : StrMode → List Char → List Char → Except ScanErr (StrMode × List Char)
  | m, st, [] => .ok (m, st)
  | .code, st, c :: rest =>
    if c = dqC then
      match rest with
      | d :: e :: r2 =>
        if d = dqC ∧ e = dqC then pyScan .tripleD st r2
        else pyScan .double st (d :: e :: r2)
      | [d] => pyScan .double st [d]
      | [] => pyScan .double st []
    else if c = sqC then
      match rest with
      | d :: e :: r2 =>
        if d = sqC ∧ e = sqC then pyScan .tripleS st r2
        else pyScan .single st (d :: e :: r2)
      | [d] => pyScan .single st [d]
      | [] => pyScan .single st []
    else if c = hashC then pyScan .comment st rest
    else if isOpenB c then pyScan .code (c :: st) rest
    else if isCloseB c then
      match st with
      | [] => .error (.unmatched c)
      | o :: st' =>
        if closerFor o = c then pyScan .code st' rest
        else .error (.mismatched o c)
    else pyScan .code st rest
  | .comment, st, c :: rest =>
    if c = nlC then pyScan .code st rest else pyScan .comment st rest
  | .double, st, c :: rest =>
    if c = bslC then
      match rest with
      | _ :: r2 => pyScan .double st r2
      | [] => pyScan .double st []
    else if c = dqC then pyScan .code st rest
    else if c = nlC then .error .newlineInString
    else pyScan .double st rest
  | .single, st, c :: rest =>
    if c = bslC then
      match rest with
      | _ :: r2 => pyScan .single st r2
      | [] => pyScan .single st []
    else if c = sqC then pyScan .code st rest
    else if c = nlC then .error .newlineInString
    else pyScan .single st rest
  | .tripleD, st, c :: rest =>
    if c = bslC then
      match rest with
      | _ :: r2 => pyScan .tripleD st r2
      | [] => pyScan .tripleD st []
    else if c = dqC then
      match rest with
      | d :: e :: r2 =>
        if d = dqC ∧ e = dqC then pyScan .code st r2
        else pyScan .tripleD st (d :: e :: r2)
      | [d] => pyScan .tripleD st [d]
      | [] => pyScan .tripleD st []
    else pyScan .tripleD st rest
  | .tripleS, st, c :: rest =>
    if c = bslC then
      match rest with
      | _ :: r2 => pyScan .tripleS st r2
      | [] => pyScan .tripleS st []
    else if c = sqC then
      match rest with
      | d :: e :: r2 =>
        if d = sqC ∧ e = sqC then pyScan .code st r2
        else pyScan .tripleS st (d :: e :: r2)
      | [d] => pyScan .tripleS st [d]
      | [] => pyScan .tripleS st []
    else pyScan .tripleS st rest

/-! ### The literal text of the suspect source regions

`ap` is an apostrophe, `qs` a double quote, `q3` a triple quote,
`nls` a newline, written via code points so that the quoted XPath
fragments of the source can be spliced verbatim around them. -/

def ap : String := String.mk [sqC]

def qs : String := String.mk [dqC]

def q3 : String := String.mk [dqC, dqC, dqC]

def nls : String := String.mk [nlC]

/-- Source line 169: `xpath_options = [` (12 spaces of indentation). -/
def navL169 : String := "            xpath_options = ["

/-- Source line 170, first XPath candidate string, trailing comma. -/
def navL170 : String :=
  "                " ++ qs ++ "//a[contains(text(), " ++ ap ++ "Find work"
    ++ ap ++ ")]" ++ qs ++ ","

/-- Source line 171, second XPath candidate string. -/
def navL171 : String :=
  "                " ++ qs ++ "//a[contains(text(), " ++ ap ++ "Shifts"
    ++ ap ++ ")]" ++ qs ++ ","

/-- Source line 172, third XPath candidate string. -/
def navL172 : String :=
  "                " ++ qs ++ "//a[contains(text(), " ++ ap ++ "Available shifts"
    ++ ap ++ ")]" ++ qs ++ ","

/-- Source line 173: the last candidate.  The XPath's closing `]` was
left outside the string, so the string literal ends right after the
`)` and the `]` that follows the closing quote closes the list. -/
def navL173 : String :=
  "                " ++ qs ++ "//nav//a[contains(text(), " ++ ap ++ "Work"
    ++ ap ++ ")" ++ qs ++ "]"

/-- Source line 174: the `]` intended to close the list literal. -/
def navL174 : String := "            ]"

/-- Source lines 169-174 of `navigate_to_shifts`: the complete
`xpath_options` list statement as it appears in the file. -/
def navListStmt : String :=
  navL169 ++ nls ++ navL170 ++ nls ++ navL171 ++ nls ++ navL172 ++ nls
    ++ navL173 ++ nls ++ navL174

/-- Source lines 203-205 of `search_shifts`: the documentation lines
that follow the already-closed docstring. -/
def searchArgsRegion : String :=
  "        Args:" ++ nls
    ++ "            location (str): Location/area" ++ nls
    ++ "            shift_type (str): Type of shift"

/-- Source lines 255-256 of `get_available_shifts`. -/
def getReturnsRegion : String :=
  "        Returns:" ++ nls
    ++ "            list: List of shift details"

/-- Source lines 339-344 of `book_shift`. -/
def bookArgsRegion : String :=
  "        Args:" ++ nls
    ++ "            shift_details (dict): Shift details dictionary" ++ nls
    ++ "            retry_count (int): Current retry attempt" ++ nls
    ++ nls
    ++ "        Returns:" ++ nls
    ++ "            bool: True if booking successful, False otherwise"

/-- A region of text contains no string-quote characters, so no string
literal can start inside it. -/
def quoteFree (s : String) : Bool :=
  s.toList.all (fun c => ¬ (c = dqC ∨ c = sqC))

/-- String/comment layer of the Python tokenizer: the same transitions
as `pyScan` restricted to string modes, comments and escapes, without
the bracket stack.  This is the layer that decides whether a position
of the file lies inside a string literal, independently of bracket
errors earlier in the file. -/
def pyStrScan : StrMode → List Char → Except ScanErr StrMode
  | m, [] => .ok m
  | .code, c :: rest =>
    if c = dqC then
      match rest with
      | d :: e :: r2 =>
        if d = dqC ∧ e = dqC then pyStrScan .tripleD r2
        else pyStrScan .double (d :: e :: r2)
      | [d] => pyStrScan .double [d]
      | [] => pyStrScan .double []
    else if c = sqC then
      match rest with
      | d :: e :: r2 =>
        if d = sqC ∧ e = sqC then pyStrScan .tripleS r2
        else pyStrScan .single (d :: e :: r2)
      | [d] => pyStrScan .single [d]
      | [] => pyStrScan .single []
    else if c = hashC then pyStrScan .comment rest
    else pyStrScan .code rest
  | .comment, c :: rest =>
    if c = nlC then pyStrScan .code rest else pyStrScan .comment rest
  | .double, c :: rest =>
    if c = bslC then
      match rest with
      | _ :: r2 => pyStrScan .double r2
      | [] => pyStrScan .double []
    else if c = dqC then pyStrScan .code rest
    else if c = nlC then .error .newlineInString
    else pyStrScan .double rest
  | .single, c :: rest =>
    if c = bslC then
      match rest with
      | _ :: r2 => pyStrScan .single r2
      | [] => pyStrScan .single []
    else if c = sqC then pyStrScan .code rest
    else if c = nlC then .error .newlineInString
    else pyStrScan .single rest
  | .tripleD, c :: rest =>
    if c = bslC then
      match rest with
      | _ :: r2 => pyStrScan .tripleD r2
      | [] => pyStrScan .tripleD []
    else if c = dqC then
      match rest with
      | d :: e :: r2 =>
        if d = dqC ∧ e = dqC then pyStrScan .code r2
        else pyStrScan .tripleD (d :: e :: r2)
      | [d] => pyStrScan .tripleD [d]
      | [] => pyStrScan .tripleD []
    else pyStrScan .tripleD rest
  | .tripleS, c :: rest =>
    if c = bslC then
      match rest with
      | _ :: r2 => pyStrScan .tripleS r2
      | [] => pyStrScan .tripleS []
    else if c = sqC then
      match rest with
      | d :: e :: r2 =>
        if d = sqC ∧ e = sqC then pyStrScan .code r2
        else pyStrScan .tripleS (d :: e :: r2)
      | [d] => pyStrScan .tripleS [d]
      | [] => pyStrScan .tripleS []
    else pyStrScan .tripleS rest

/-- Scan a list of physical source lines, threading the string mode:
each line is processed together with its terminating newline.  No
lexeme of this file crosses a line boundary except the triple-quoted
strings, whose state the mode carries. -/
def scanLines : StrMode → List String → Except ScanErr StrMode
  | m, [] => .ok m
  | m, l :: ls =>
    match pyStrScan m (l ++ nls).toList with
    | .ok m2 => scanLines m2 ls
    | .error e => .error e

/-- Scan a list of physical source lines with the full `pyScan`
(string modes and the bracket stack). -/
def scanLinesBr : StrMode → List Char → List String →
    Except ScanErr (StrMode × List Char)
  | m, st, [] => .ok (m, st)
  | m, st, l :: ls =>
    match pyScan m st (l ++ nls).toList with
    | .ok (m2, st2) => scanLinesBr m2 st2 ls
    | .error e => .error e

/-- Left and right brace characters as one-character strings, for
splicing source text that contains braces. -/
def lbs : String := String.mk [lbraceC]

def rbs : String := String.mk [rbraceC]

/-- Source lines 1-344 of `nhs_shift_booker.py`, verbatim (apostrophes,
quotes and braces spliced in by code point).  Line `n` of the file is
entry `n - 1` of this list.  The range covers everything up to and
including the `Args:`/`Returns:` documentation block of `book_shift`
(lines 339-344). -/
def srcL : List String := [
  qs ++ qs ++ qs,
  "NHS Professionals Automatic Shift Booker",
  "Customized for: Sanjay Jismon",
  "Location: Worcester Royal Hospital",
  "Shift Type: Healthcare Assistant (Night shifts 19:00 - 08:00)",
  "",
  "This script automates shift booking on the NHS Professionals platform using Selenium.",
  "It continuously searches for available shifts and books them automatically.",
  qs ++ qs ++ qs,
  "",
  "import time",
  "import logging",
  "from datetime import datetime",
  "from selenium import webdriver",
  "from selenium.webdriver.common.by import By",
  "from selenium.webdriver.support.ui import WebDriverWait",
  "from selenium.webdriver.support import expected_conditions as EC",
  "from selenium.webdriver.chrome.service import Service",
  "from selenium.webdriver.common.keys import Keys",
  "from webdriver_manager.chrome import ChromeDriverManager",
  "from config import (",
  "    NHS_EMAIL, NHS_PASSWORD, PREFERRED_LOCATION, PREFERRED_SHIFT_TYPES,",
  "    SHIFT_TIME_START, SHIFT_TIME_END, MAX_SHIFTS_TO_BOOK,",
  "    SEARCH_INTERVAL_MINUTES, HEADLESS_MODE, MAX_RETRY_ATTEMPTS,",
  "    RETRY_DELAY_SECONDS, ELEMENT_WAIT_TIME",
  ")",
  "",
  "# Configure logging",
  "logging.basicConfig(",
  "    level=logging.INFO,",
  "    format=" ++ ap ++ "%(asctime)s - %(levelname)s - %(message)s" ++ ap ++ ",",
  "    handlers=[",
  "        logging.FileHandler(" ++ ap ++ "nhs_shift_booker.log" ++ ap ++ "),",
  "        logging.StreamHandler()",
  "    ]",
  ")",
  "logger = logging.getLogger(__name__)",
  "",
  "",
  "class NHSShiftBooker:",
  "    def __init__(self, email, password, headless=False):",
  "        " ++ qs ++ qs ++ qs,
  "        Initialize the NHS Shift Booker",
  "        ",
  "        Args:",
  "            email (str): Your NHS Professionals email",
  "            password (str): Your NHS Professionals password",
  "            headless (bool): Run browser in headless mode",
  "        " ++ qs ++ qs ++ qs,
  "        self.email = email",
  "        self.password = password",
  "        self.headless = headless",
  "        self.driver = None",
  "        self.wait = None",
  "        self.booked_shifts = []",
  "        ",
  "    def setup_driver(self):",
  "        " ++ qs ++ qs ++ qs ++ "Initialize the Chrome WebDriver" ++ qs ++ qs ++ qs,
  "        try:",
  "            options = webdriver.ChromeOptions()",
  "            if self.headless:",
  "                options.add_argument(" ++ ap ++ "--headless" ++ ap ++ ")",
  "            options.add_argument(" ++ ap ++ "--no-sandbox" ++ ap ++ ")",
  "            options.add_argument(" ++ ap ++ "--disable-dev-shm-usage" ++ ap ++ ")",
  "            options.add_argument(" ++ ap ++ "--disable-blink-features=AutomationControlled" ++ ap ++ ")",
  "            options.add_argument(" ++ ap ++ "--start-maximized" ++ ap ++ ")",
  "            options.add_argument(" ++ ap ++ "user-agent=Mozilla/5.0 (Windows NT 10.0; Win64; x64) AppleWebKit/537.36" ++ ap ++ ")",
  "            options.add_experimental_option(" ++ qs ++ "excludeSwitches" ++ qs ++ ", [" ++ qs ++ "enable-automation" ++ qs ++ "])",
  "            options.add_experimental_option(" ++ ap ++ "useAutomationExtension" ++ ap ++ ", False)",
  "            ",
  "            service = Service(ChromeDriverManager().install())",
  "            self.driver = webdriver.Chrome(service=service, options=options)",
  "            self.wait = WebDriverWait(self.driver, ELEMENT_WAIT_TIME)",
  "            logger.info(" ++ qs ++ "✅ WebDriver initialized successfully" ++ qs ++ ")",
  "        except Exception as e:",
  "            logger.error(f" ++ qs ++ "❌ Failed to initialize WebDriver: " ++ lbs ++ "e" ++ rbs ++ qs ++ ")",
  "            raise",
  "",
  "    def login(self, retry_count=0):",
  "        " ++ qs ++ qs ++ qs ++ "Login to NHS Professionals with retry logic" ++ qs ++ qs ++ qs,
  "        try:",
  "            logger.info(" ++ qs ++ "🔐 Starting login process..." ++ qs ++ ")",
  "            self.driver.get(" ++ qs ++ "https://www.nhsprofessionals.nhs.uk/" ++ qs ++ ")",
  "            time.sleep(3)",
  "            ",
  "            # Look for login button",
  "            try:",
  "                login_button = self.wait.until(",
  "                    EC.element_to_be_clickable((By.XPATH, " ++ qs ++ "//a[contains(text(), " ++ ap ++ "Log in" ++ ap ++ ")] | //button[contains(text(), " ++ ap ++ "Log in" ++ ap ++ ")]" ++ qs ++ "))",
  "                )",
  "                login_button.click()",
  "                logger.info(" ++ qs ++ "✓ Clicked login button" ++ qs ++ ")",
  "                time.sleep(2)",
  "            except:",
  "                logger.warning(" ++ qs ++ "Login button not found, might already be on login page" ++ qs ++ ")",
  "            ",
  "            # Switch to login frame if exists",
  "            try:",
  "                iframes = self.driver.find_elements(By.TAG_NAME, " ++ qs ++ "iframe" ++ qs ++ ")",
  "                if iframes:",
  "                    self.driver.switch_to.frame(iframes[0])",
  "                    logger.info(" ++ qs ++ "✓ Switched to login iframe" ++ qs ++ ")",
  "                    time.sleep(1)",
  "            except Exception as e:",
  "                logger.debug(f" ++ qs ++ "No iframe found: " ++ lbs ++ "e" ++ rbs ++ qs ++ ")",
  "            ",
  "            # Enter email",
  "            try:",
  "                email_field = self.wait.until(",
  "                    EC.presence_of_element_located((By.XPATH, " ++ qs ++ "//input[@id=" ++ ap ++ "username" ++ ap ++ "] | //input[@name=" ++ ap ++ "email" ++ ap ++ "] | //input[@type=" ++ ap ++ "email" ++ ap ++ "]" ++ qs ++ "))",
  "                )",
  "                email_field.clear()",
  "                email_field.send_keys(self.email)",
  "                logger.info(" ++ qs ++ "✓ Email entered" ++ qs ++ ")",
  "                time.sleep(1)",
  "            except Exception as e:",
  "                logger.error(f" ++ qs ++ "❌ Failed to find email field: " ++ lbs ++ "e" ++ rbs ++ qs ++ ")",
  "                if retry_count < MAX_RETRY_ATTEMPTS:",
  "                    logger.info(f" ++ qs ++ "Retrying login... Attempt " ++ lbs ++ "retry_count + 1" ++ rbs ++ qs ++ ")",
  "                    time.sleep(RETRY_DELAY_SECONDS)",
  "                    self.driver.refresh()",
  "                    return self.login(retry_count + 1)",
  "                raise",
  "            ",
  "            # Enter password",
  "            try:",
  "                password_field = self.wait.until(",
  "                    EC.presence_of_element_located((By.XPATH, " ++ qs ++ "//input[@id=" ++ ap ++ "password" ++ ap ++ "] | //input[@name=" ++ ap ++ "password" ++ ap ++ "] | //input[@type=" ++ ap ++ "password" ++ ap ++ "]" ++ qs ++ "))",
  "                )",
  "                password_field.clear()",
  "                password_field.send_keys(self.password)",
  "                logger.info(" ++ qs ++ "✓ Password entered" ++ qs ++ ")",
  "                time.sleep(1)",
  "            except Exception as e:",
  "                logger.error(f" ++ qs ++ "❌ Failed to find password field: " ++ lbs ++ "e" ++ rbs ++ qs ++ ")",
  "                raise",
  "            ",
  "            # Click login button",
  "            try:",
  "                submit_button = self.wait.until(",
  "                    EC.element_to_be_clickable((By.XPATH, " ++ qs ++ "//button[@id=" ++ ap ++ "kc-login" ++ ap ++ "] | //button[contains(@type, " ++ ap ++ "submit" ++ ap ++ ")] | //input[@value=" ++ ap ++ "Log in" ++ ap ++ "]" ++ qs ++ "))",
  "                )",
  "                submit_button.click()",
  "                logger.info(" ++ qs ++ "✓ Login submitted" ++ qs ++ ")",
  "                time.sleep(5)",
  "            except Exception as e:",
  "                logger.error(f" ++ qs ++ "❌ Failed to find submit button: " ++ lbs ++ "e" ++ rbs ++ qs ++ ")",
  "                raise",
  "            ",
  "            # Check if login was successful",
  "            try:",
  "                self.driver.switch_to.default_content()",
  "            except:",
  "                pass",
  "            ",
  "            time.sleep(3)",
  "            logger.info(" ++ qs ++ "✅ Login successful" ++ qs ++ ")",
  "            ",
  "        except Exception as e:",
  "            logger.error(f" ++ qs ++ "❌ Login failed: " ++ lbs ++ "e" ++ rbs ++ qs ++ ")",
  "            raise",
  "",
  "    def navigate_to_shifts(self):",
  "        " ++ qs ++ qs ++ qs ++ "Navigate to available shifts" ++ qs ++ qs ++ qs,
  "        try:",
  "            logger.info(" ++ qs ++ "🔍 Navigating to available shifts..." ++ qs ++ ")",
  "            ",
  "            # Try multiple ways to find shifts/find work link",
  "            xpath_options = [",
  "                " ++ qs ++ "//a[contains(text(), " ++ ap ++ "Find work" ++ ap ++ ")]" ++ qs ++ ",",
  "                " ++ qs ++ "//a[contains(text(), " ++ ap ++ "Shifts" ++ ap ++ ")]" ++ qs ++ ",",
  "                " ++ qs ++ "//a[contains(text(), " ++ ap ++ "Available shifts" ++ ap ++ ")]" ++ qs ++ ",",
  "                " ++ qs ++ "//nav//a[contains(text(), " ++ ap ++ "Work" ++ ap ++ ")" ++ qs ++ "]",
  "            ]",
  "            ",
  "            found = False",
  "            for xpath in xpath_options:",
  "                try:",
  "                    shifts_link = self.wait.until(",
  "                        EC.element_to_be_clickable((By.XPATH, xpath))",
  "                    )",
  "                    shifts_link.click()",
  "                    found = True",
  "                    logger.info(" ++ qs ++ "✓ Found and clicked shifts link" ++ qs ++ ")",
  "                    break",
  "                except:",
  "                    continue",
  "            ",
  "            if not found:",
  "                logger.warning(" ++ qs ++ "⚠️ Could not find shifts link, trying direct URL" ++ qs ++ ")",
  "                self.driver.get(" ++ qs ++ "https://www.nhsprofessionals.nhs.uk/search-shifts" ++ qs ++ ")",
  "            ",
  "            time.sleep(3)",
  "            logger.info(" ++ qs ++ "✅ Navigated to shifts section" ++ qs ++ ")",
  "            ",
  "        except Exception as e:",
  "            logger.error(f" ++ qs ++ "❌ Navigation to shifts failed: " ++ lbs ++ "e" ++ rbs ++ qs ++ ")",
  "            raise",
  "",
  "    def search_shifts(self, location=None, shift_type=None):",
  "        " ++ qs ++ qs ++ qs ++ "Search for available shifts with filters" ++ qs ++ qs ++ qs,
  "        ",
  "        Args:",
  "            location (str): Location/area",
  "            shift_type (str): Type of shift",
  "        " ++ qs ++ qs ++ qs,
  "        try:",
  "            logger.info(f" ++ qs ++ "🔎 Searching for shifts - Location: " ++ lbs ++ "location" ++ rbs ++ ", Type: " ++ lbs ++ "shift_type" ++ rbs ++ qs ++ ")",
  "            ",
  "            # Try to find and fill location field",
  "            if location:",
  "                try:",
  "                    location_field = self.wait.until(",
  "                        EC.presence_of_element_located((By.XPATH, " ++ qs ++ "//input[contains(@placeholder, " ++ ap ++ "location" ++ ap ++ ")] | //input[contains(@placeholder, " ++ ap ++ "Location" ++ ap ++ ")] | //input[@name=" ++ ap ++ "location" ++ ap ++ "]" ++ qs ++ "))",
  "                    )",
  "                    location_field.clear()",
  "                    location_field.send_keys(location)",
  "                    time.sleep(1)",
  "                    logger.info(f" ++ qs ++ "✓ Entered location: " ++ lbs ++ "location" ++ rbs ++ qs ++ ")",
  "                except Exception as e:",
  "                    logger.warning(f" ++ qs ++ "⚠️ Could not enter location: " ++ lbs ++ "e" ++ rbs ++ qs ++ ")",
  "            ",
  "            # Try to find and fill shift type field",
  "            if shift_type:",
  "                try:",
  "                    type_field = self.wait.until(",
  "                        EC.presence_of_element_located((By.XPATH, " ++ qs ++ "//input[contains(@placeholder, " ++ ap ++ "type" ++ ap ++ ")] | //select[@name=" ++ ap ++ "shiftType" ++ ap ++ "]" ++ qs ++ "))",
  "                    )",
  "                    type_field.clear()",
  "                    type_field.send_keys(shift_type)",
  "                    time.sleep(1)",
  "                    logger.info(f" ++ qs ++ "✓ Entered shift type: " ++ lbs ++ "shift_type" ++ rbs ++ qs ++ ")",
  "                except Exception as e:",
  "                    logger.warning(f" ++ qs ++ "⚠️ Could not enter shift type: " ++ lbs ++ "e" ++ rbs ++ qs ++ ")",
  "            ",
  "            # Click search button",
  "            try:",
  "                search_button = self.wait.until(",
  "                    EC.element_to_be_clickable((By.XPATH, " ++ qs ++ "//button[contains(text(), " ++ ap ++ "Search" ++ ap ++ ")] | //button[contains(text(), " ++ ap ++ "search" ++ ap ++ ")] | //button[@type=" ++ ap ++ "submit" ++ ap ++ "]" ++ qs ++ "))",
  "                )",
  "                search_button.click()",
  "                logger.info(" ++ qs ++ "✓ Search submitted" ++ qs ++ ")",
  "                time.sleep(4)",
  "            except Exception as e:",
  "                logger.warning(f" ++ qs ++ "⚠️ Could not find search button: " ++ lbs ++ "e" ++ rbs ++ qs ++ ")",
  "            ",
  "            logger.info(" ++ qs ++ "✅ Shift search completed" ++ qs ++ ")",
  "            ",
  "        except Exception as e:",
  "            logger.error(f" ++ qs ++ "❌ Shift search failed: " ++ lbs ++ "e" ++ rbs ++ qs ++ ")",
  "",
  "    def get_available_shifts(self):",
  "        " ++ qs ++ qs ++ qs ++ "Get list of available shifts matching criteria" ++ qs ++ qs ++ qs,
  "        ",
  "        Returns:",
  "            list: List of shift details",
  "        " ++ qs ++ qs ++ qs,
  "        try:",
  "            shifts = []",
  "            ",
  "            # Try multiple selector patterns for shift items",
  "            selectors = [",
  "                " ++ qs ++ "//div[contains(@class, " ++ ap ++ "shift-item" ++ ap ++ ")] | //div[contains(@class, " ++ ap ++ "shift-card" ++ ap ++ ")]" ++ qs ++ ",",
  "                " ++ qs ++ "//tr[contains(@class, " ++ ap ++ "shift" ++ ap ++ ")]" ++ qs ++ ",",
  "                " ++ qs ++ "//li[contains(@class, " ++ ap ++ "shift" ++ ap ++ ")]" ++ qs,
  "            ]",
  "            ",
  "            shift_elements = []",
  "            for selector in selectors:",
  "                try:",
  "                    shift_elements = self.driver.find_elements(By.XPATH, selector)",
  "                    if shift_elements:",
  "                        break",
  "                except:",
  "                    continue",
  "            ",
  "            logger.info(f" ++ qs ++ "🔎 Found " ++ lbs ++ "len(shift_elements)" ++ rbs ++ " shift elements" ++ qs ++ ")",
  "            ",
  "            for idx, shift in enumerate(shift_elements):",
  "                try:",
  "                    # Extract shift details",
  "                    shift_info = " ++ lbs,
  "                        " ++ ap ++ "index" ++ ap ++ ": idx,",
  "                        " ++ ap ++ "element" ++ ap ++ ": shift",
  "                    " ++ rbs,
  "                    ",
  "                    # Try to get job title",
  "                    try:",
  "                        title = shift.find_element(By.XPATH, " ++ qs ++ ".//*[contains(@class, " ++ ap ++ "title" ++ ap ++ ")] | ./h3 | .//*[contains(@class, " ++ ap ++ "job-title" ++ ap ++ ")] " ++ qs ++ ").text",
  "                        shift_info[" ++ ap ++ "title" ++ ap ++ "] = title",
  "                    except:",
  "                        shift_info[" ++ ap ++ "title" ++ ap ++ "] = " ++ ap ++ "Unknown" ++ ap,
  "                    ",
  "                    # Try to get location",
  "                    try:",
  "                        location = shift.find_element(By.XPATH, " ++ qs ++ ".//*[contains(@class, " ++ ap ++ "location" ++ ap ++ ")] | .//*[contains(text(), " ++ ap ++ "worcester" ++ ap ++ ")] " ++ qs ++ ").text",
  "                        shift_info[" ++ ap ++ "location" ++ ap ++ "] = location",
  "                    except:",
  "                        shift_info[" ++ ap ++ "location" ++ ap ++ "] = " ++ ap ++ "Unknown" ++ ap,
  "                    ",
  "                    # Try to get date",
  "                    try:",
  "                        date = shift.find_element(By.XPATH, " ++ qs ++ ".//*[contains(@class, " ++ ap ++ "date" ++ ap ++ ")] | .//*[contains(@class, " ++ ap ++ "shift-date" ++ ap ++ ")] " ++ qs ++ ").text",
  "                        shift_info[" ++ ap ++ "date" ++ ap ++ "] = date",
  "                    except:",
  "                        shift_info[" ++ ap ++ "date" ++ ap ++ "] = " ++ ap ++ "Unknown" ++ ap,
  "                    ",
  "                    # Try to get time",
  "                    try:",
  "                        time_text = shift.find_element(By.XPATH, " ++ qs ++ ".//*[contains(@class, " ++ ap ++ "time" ++ ap ++ ")] | .//*[contains(@class, " ++ ap ++ "shift-time" ++ ap ++ ")] " ++ qs ++ ").text",
  "                        shift_info[" ++ ap ++ "time" ++ ap ++ "] = time_text",
  "                    except:",
  "                        shift_info[" ++ ap ++ "time" ++ ap ++ "] = " ++ ap ++ "Unknown" ++ ap,
  "                    ",
  "                    # Try to get pay",
  "                    try:",
  "                        pay = shift.find_element(By.XPATH, " ++ qs ++ ".//*[contains(@class, " ++ ap ++ "pay" ++ ap ++ ")] | .//*[contains(text(), " ++ ap ++ "£" ++ ap ++ ")] " ++ qs ++ ").text",
  "                        shift_info[" ++ ap ++ "pay" ++ ap ++ "] = pay",
  "                    except:",
  "                        shift_info[" ++ ap ++ "pay" ++ ap ++ "] = " ++ ap ++ "Unknown" ++ ap,
  "                    ",
  "                    shifts.append(shift_info)",
  "                    logger.debug(f" ++ qs ++ "Shift " ++ lbs ++ "idx" ++ rbs ++ ": " ++ lbs ++ "shift_info.get(" ++ ap ++ "title" ++ ap ++ ", " ++ ap ++ "Unknown" ++ ap ++ ")" ++ rbs ++ " - " ++ lbs ++ "shift_info.get(" ++ ap ++ "date" ++ ap ++ ", " ++ ap ++ "Unknown" ++ ap ++ ")" ++ rbs ++ qs ++ ")",
  "                    ",
  "                except Exception as e:",
  "                    logger.debug(f" ++ qs ++ "Could not parse shift " ++ lbs ++ "idx" ++ rbs ++ ": " ++ lbs ++ "e" ++ rbs ++ qs ++ ")",
  "                    continue",
  "            ",
  "            logger.info(f" ++ qs ++ "✅ Found " ++ lbs ++ "len(shifts)" ++ rbs ++ " available shifts" ++ qs ++ ")",
  "            return shifts",
  "            ",
  "        except Exception as e:",
  "            logger.error(f" ++ qs ++ "❌ Failed to get available shifts: " ++ lbs ++ "e" ++ rbs ++ qs ++ ")",
  "            return []",
  "",
  "    def book_shift(self, shift_details, retry_count=0):",
  "        " ++ qs ++ qs ++ qs ++ "Book a specific shift with retry logic" ++ qs ++ qs ++ qs,
  "        ",
  "        Args:",
  "            shift_details (dict): Shift details dictionary",
  "            retry_count (int): Current retry attempt",
  "            ",
  "        Returns:",
  "            bool: True if booking successful, False otherwise"]

/-! ## Part 2: behavioural model of class `NHSShiftBooker`

Every browser interaction that can fail (locating an element, clicking,
loading a URL) is answered by an environment record; `None`/`false`
means the Selenium call raised.  Effects relevant to the claims
(`time.sleep`, `driver.refresh`, retries, booking attempts) are recorded
as events.  Exceptions are `Except.error`; a caught exception is a
handled branch.  The `while True` loop and the self-restart recursion
are run on explicit fuel, since the Python code never terminates them
on its own. -/

/-- Configuration constants imported from `config.py` (the module is
referenced by the source but not part of the repository); they stay
abstract parameters of the model. -/
structure Config where
  maxRetryAttempts : Nat
  retryDelaySeconds : Nat
  searchIntervalMinutes : Nat
  maxShiftsToBook : Nat
deriving DecidableEq, Repr

/-- Observable events of a run. -/
inductive Ev
| sleepSecs (n : Nat)
| refresh
| retryLogged
| setupDriver
| loginDone
| cycleStart (k : Nat)
| bookAttempt (idx : Nat)
| cycleErrorLogged
deriving DecidableEq, Repr

/-- Environment for `login`: for each attempt number, whether each
element lookup succeeds.  The login-button and iframe lookups are
wrapped in their own `try`/`except` in the source, so their outcome
only affects the emitted sleeps, never the result. -/
structure LoginEnv where
  loginButtonOk : Nat → Bool
  iframeFound : Nat → Bool
  emailFieldOk : Nat → Bool
  passwordFieldOk : Nat → Bool
  submitOk : Nat → Bool

/-- Model of `NHSShiftBooker.login` (source lines 79-161).  Returns the
result (`.error` = the method raises) and the event trace.  The email
field branch retries while `retry_count < MAX_RETRY_ATTEMPTS`, sleeping
`RETRY_DELAY_SECONDS` and refreshing before each retry, and re-raises
once the bound is reached; password and submit failures re-raise at
once. -/
def login (cfg : Config) (env : LoginEnv) (retry_count : Nat) :
    Except Unit Unit × List Ev :=
  let t0 := [Ev.sleepSecs 3]
    ++ (if env.loginButtonOk retry_count then [Ev.sleepSecs 2] else [])
    ++ (if env.iframeFound retry_count then [Ev.sleepSecs 1] else [])
  if env.emailFieldOk retry_count then
    let t1 := t0 ++ [Ev.sleepSecs 1]
    if env.passwordFieldOk retry_count then
      let t2 := t1 ++ [Ev.sleepSecs 1]
      if env.submitOk retry_count then
        (.ok (), t2 ++ [Ev.sleepSecs 5, Ev.sleepSecs 3])
      else (.error (), t2)
    else (.error (), t1)
  else
    if retry_count < cfg.maxRetryAttempts then
      let r := login cfg env (retry_count + 1)
      (r.1, t0 ++ [Ev.sleepSecs cfg.retryDelaySeconds, Ev.refresh] ++ r.2)
    else (.error (), t0)
termination_by cfg.maxRetryAttempts + 1 - retry_count

/-- A successfully booked shift, as appended to `self.booked_shifts`
(source lines 396-400 and 407-411): title, date, and the timestamp of
the booking. -/
structure BookedShift where
  title : String
  date : String
  time : String
deriving DecidableEq, Repr

/-- The value of `self.booked_shifts` set by `__init__`
(source line 55). -/
def initialBookedShifts : List BookedShift := []

/-- Environment for `book_shift`, indexed by attempt number:
whether `execute_script` (scroll) runs, whether the book/apply button
is found and clicked, whether a confirmation dialog appears, which
success indicator (if any) matches, and the `datetime.now()` string. -/
structure BookEnv where
  scrollOk : Nat → Bool
  bookButtonOk : Nat → Bool
  confirmFound : Nat → Bool
  successIndicatorAt : Nat → Option (Fin 4)
  nowStr : Nat → String

/-- Model of `NHSShiftBooker.book_shift` (source lines 336-424).
Returns (success flag, updated `booked_shifts`, event trace).

Control flow from the source: a failure of the scroll script is caught
by the outer handler (line 418) which retries while
`retry_count < MAX_RETRY_ATTEMPTS` and returns `False` at the bound; a
failure to find/click the book button is caught at line 364 with the
same retry-or-`False` logic; the confirmation dialog block swallows
every failure; the success-check section appends to `booked_shifts` and
returns `True` both when a success indicator matches and in the
no-indicator fallback (lines 405-412), so every lookup failure inside
it is absorbed by `continue` and the `except` at line 414 is
unreachable for element-lookup failures. -/
def book_shift (cfg : Config) (env : BookEnv) (title date : String)
    (booked : List BookedShift) (retry_count : Nat) :
    Bool × List BookedShift × List Ev :=
  if env.scrollOk retry_count then
    let t0 := [Ev.sleepSecs 1]
    if env.bookButtonOk retry_count then
      let t1 := t0 ++ [Ev.sleepSecs 2]
        ++ (if env.confirmFound retry_count then [Ev.sleepSecs 2] else [])
      (true,
       booked ++ [⟨title, date, env.nowStr retry_count⟩],
       t1)
    else
      if retry_count < cfg.maxRetryAttempts then
        let r := book_shift cfg env title date booked (retry_count + 1)
        (r.1, r.2.1,
         t0 ++ [Ev.retryLogged, Ev.sleepSecs cfg.retryDelaySeconds] ++ r.2.2)
      else (false, booked, t0)
  else
    if retry_count < cfg.maxRetryAttempts then
      let r := book_shift cfg env title date booked (retry_count + 1)
      (r.1, r.2.1,
       [Ev.retryLogged, Ev.sleepSecs cfg.retryDelaySeconds] ++ r.2.2)
    else (false, booked, [])
termination_by cfg.maxRetryAttempts + 1 - retry_count

/-- The five display fields scraped per shift element. -/
inductive ShiftField
| title
| location
| date
| time
| pay
deriving DecidableEq, Repr

/-- A scraped shift record (`shift_info`, source lines 282-322):
position in the result list, the live element handle, and the five
display strings.  All five display fields are always present. -/
structure ShiftInfo where
  index : Nat
  element : Nat
  title : String
  location : String
  date : String
  time : String
  pay : String
deriving DecidableEq, Repr

/-- Environment for `get_available_shifts`: the result of
`find_elements` for each of the three candidate selectors (`none` =
the call raised, `some l` = the element handles found), the text found
for each field of each element handle (`none` = the lookup raised), an
abstract exception while assembling the record of element number `idx`
(the region guarded by the per-element `except` at line 325), and an
abstract exception in the outer `try` outside all inner guards (for
example from logging), handled at line 332. -/
structure ScrapeEnv where
  findElements : Nat → Option (List Nat)
  fieldText : Nat → ShiftField → Option String
  elemRaises : Nat → Bool
  scanRaises : Bool

/-- The selector loop of source lines 268-275: `shift_elements` is
re-assigned by each selector that does not raise, and the loop breaks
at the first non-empty result; a raising selector keeps the previous
value. -/
def findShiftElements (env : ScrapeEnv) : List Nat → List Nat → List Nat
  | acc, [] => acc
  | acc, i :: rest =>
    match env.findElements i with
    | none => findShiftElements env acc rest
    | some l => if l.isEmpty then findShiftElements env l rest else l

/-- A field lookup with the `'Unknown'` fallback of the per-field
`try`/`except` blocks (source lines 288-320). -/
def fieldOrUnknown (env : ScrapeEnv) (h : Nat) (f : ShiftField) : String :=
  (env.fieldText h f).getD "Unknown"

/-- One `shift_info` record for element handle `h` at position `idx`. -/
def buildShiftInfo (env : ScrapeEnv) (idx h : Nat) : ShiftInfo :=
  { index := idx
    element := h
    title := fieldOrUnknown env h .title
    location := fieldOrUnknown env h .location
    date := fieldOrUnknown env h .date
    time := fieldOrUnknown env h .time
    pay := fieldOrUnknown env h .pay }

/-- The body of the outer `try` of `get_available_shifts`
(source lines 258-330): select the elements, then build one record per
element, skipping any element whose processing raises (`continue` at
line 327). -/
def get_available_shifts_core (env : ScrapeEnv) :
    Except Unit (List ShiftInfo) :=
  if env.scanRaises then .error () else
  .ok ((findShiftElements env [] [0, 1, 2]).enum.filterMap (fun p =>
    if env.elemRaises p.1 then none
    else some (buildShiftInfo env p.1 p.2)))

/-- Model of `NHSShiftBooker.get_available_shifts`
(source lines 252-334): the outer handler turns any escaping exception
into the empty list (line 334), so the method never raises. -/
def get_available_shifts (env : ScrapeEnv) : Except Unit (List ShiftInfo) :=
  match get_available_shifts_core env with
  | .ok l => .ok l
  | .error _ => .ok []

/-- Environment for `navigate_to_shifts`: whether each of the four
XPath candidates (source lines 169-174 as evidently intended) is
clickable, and whether loading the fallback URL succeeds. -/
structure NavEnv where
  clickable : Nat → Bool
  directGetOk : Bool

/-- Where `navigate_to_shifts` ends up. -/
inductive NavOutcome
| clicked (i : Nat)
| directUrl
deriving DecidableEq, Repr

/-- The candidate loop of source lines 177-187: the first clickable
XPath option wins. -/
def navFirstClickable (env : NavEnv) : List Nat → Option Nat
  | [] => none
  | i :: rest => if env.clickable i then some i else navFirstClickable env rest

/-- Model of `NHSShiftBooker.navigate_to_shifts`
(source lines 163-198): try the candidates in order; if none succeeds,
load the direct search-shifts URL; a failure of that load escapes to
the outer handler, which re-raises (line 198). -/
def navigate_to_shifts (env : NavEnv) : Except Unit NavOutcome :=
  match navFirstClickable env [0, 1, 2, 3] with
  | some i => .ok (.clicked i)
  | none => if env.directGetOk then .ok .directUrl else .error ()

/-- Environment for one search cycle of `run_continuous_booking`:
the navigation and scraping environments, and one `book_shift`
environment per shift position in that cycle.  `search_shifts`
(source lines 200-250) wraps every lookup in `try`/`except` blocks that
only log, and its outer handler also only logs, so it can neither raise
nor influence anything observed by the claims; it is therefore a no-op
in the model. -/
structure CycleEnv where
  nav : NavEnv
  scrape : ScrapeEnv
  bookEnvAt : Nat → BookEnv

/-- The `for shift in shifts` body of source lines 462-473: one
`book_shift` call and a 2-second sleep per scraped shift, threading
`booked_shifts` through. -/
def bookAll (cfg : Config) (env : CycleEnv) :
    List ShiftInfo → List BookedShift → List BookedShift × List Ev
  | [], booked => (booked, [])
  | s :: rest, booked =>
    let r := book_shift cfg (env.bookEnvAt s.index) s.title s.date booked 0
    let r2 := bookAll cfg env rest r.2.1
    (r2.1, Ev.bookAttempt s.index :: r.2.2 ++ [Ev.sleepSecs 2] ++ r2.2)

/-- The inner `try` of one search cycle (source lines 448-484):
navigate, search, scrape, book each shift; any exception raised inside
is caught at line 482, logged, and the cycle ends with `booked_shifts`
as it was when the exception escaped.  The only step of the model that
can raise here is `navigate_to_shifts`. -/
def cycleBody (cfg : Config) (env : CycleEnv) (booked : List BookedShift) :
    List BookedShift × List Ev :=
  match navigate_to_shifts env.nav with
  | .error _ => (booked, [Ev.cycleErrorLogged])
  | .ok _ =>
    match get_available_shifts env.scrape with
    | .error _ => (booked, [Ev.cycleErrorLogged])
    | .ok shifts => bookAll cfg env shifts booked

/-- Environment for the `while True` loop: the cycle environment for
each cycle number, whether a `KeyboardInterrupt` arrives during cycle
`k` (modelled at the start of the cycle; `KeyboardInterrupt` is not an
`Exception`, so the inner handler at line 482 does not catch it), and
whether an ordinary exception occurs at the unguarded between-cycle
lines 486-489 of cycle `k` (such an exception escapes the `while` loop
to the handler at line 496). -/
structure LoopEnv where
  cycleAt : Nat → CycleEnv
  kiAt : Nat → Bool
  outerExcAt : Nat → Bool

/-- How a fuelled run of the `while True` loop ends. -/
inductive LoopResult
| interrupted (booked : List BookedShift)
| fatal (booked : List BookedShift)
| outOfFuel (booked : List BookedShift)
deriving DecidableEq, Repr

/-- The `booked_shifts` list carried by a loop result. -/
def LoopResult.booked : LoopResult → List BookedShift
  | .interrupted b => b
  | .fatal b => b
  | .outOfFuel b => b

/-- Model of the `while True` loop of source lines 442-489, run on
fuel.  Each iteration: increment the cycle counter, run the guarded
cycle body, then the unguarded statistics/sleep lines ending in
`time.sleep(SEARCH_INTERVAL_MINUTES * 60)`, then loop. -/
def bookingLoop (cfg : Config) (env : LoopEnv) (k : Nat)
    (booked : List BookedShift) : Nat → LoopResult × List Ev
  | 0 => (.outOfFuel booked, [])
  | fuel + 1 =>
    if env.kiAt k then (.interrupted booked, [Ev.cycleStart k])
    else
      let b := cycleBody cfg (env.cycleAt k) booked
      if env.outerExcAt k then (.fatal b.1, Ev.cycleStart k :: b.2)
      else
        let r := bookingLoop cfg env (k + 1) b.1 fuel
        (r.1,
         Ev.cycleStart k :: b.2
           ++ [Ev.sleepSecs (cfg.searchIntervalMinutes * 60)] ++ r.2)

/-- Environment of one incarnation of `run_continuous_booking`:
whether `setup_driver` succeeds, the login environment, and the loop
environment. -/
structure RunEnv where
  setupOk : Bool
  loginEnv : LoginEnv
  loopEnv : LoopEnv

/-- How a fuelled run of `run_continuous_booking` ends: via the
`KeyboardInterrupt` handler (line 491) or by running out of fuel. -/
inductive RunOutcome
| interrupted (booked : List BookedShift)
| outOfFuel (booked : List BookedShift)
deriving DecidableEq, Repr

/-- The `booked_shifts` list carried by a run outcome. -/
def RunOutcome.booked : RunOutcome → List BookedShift
  | .interrupted b => b
  | .outOfFuel b => b

/-- Model of `NHSShiftBooker.run_continuous_booking`
(source lines 426-502), run on fuel.  `envs j` is the environment of
the `j`-th incarnation (the stream advances on each self-restart).
`setup_driver` or `login` raising, or an ordinary exception escaping
the `while` loop, is caught by the `except Exception` handler at line
496, which sleeps 10 seconds and calls `run_continuous_booking` again,
starting over with `setup_driver` and `login`; a `KeyboardInterrupt`
is caught at line 491 and ends the run. -/
def run_continuous_booking (cfg : Config) (envs : Nat → RunEnv)
    (booked : List BookedShift) : Nat → RunOutcome × List Ev
  | 0 => (.outOfFuel booked, [])
  | fuel + 1 =>
    let env := envs 0
    if env.setupOk then
      match login cfg env.loginEnv 0 with
      | (.ok _, lt) =>
        match bookingLoop cfg env.loopEnv 1 booked fuel with
        | (.interrupted bk, t) =>
          (.interrupted bk, Ev.setupDriver :: lt ++ [Ev.loginDone] ++ t)
        | (.fatal bk, t) =>
          let r := run_continuous_booking cfg (fun i => envs (i + 1)) bk fuel
          (r.1,
           Ev.setupDriver :: lt ++ [Ev.loginDone] ++ t
             ++ [Ev.sleepSecs 10] ++ r.2)
        | (.outOfFuel bk, t) =>
          (.outOfFuel bk, Ev.setupDriver :: lt ++ [Ev.loginDone] ++ t)
      | (.error _, lt) =>
        let r := run_continuous_booking cfg (fun i => envs (i + 1)) booked fuel
        (r.1, Ev.setupDriver :: lt ++ [Ev.sleepSecs 10] ++ r.2)
    else
      let r := run_continuous_booking cfg (fun i => envs (i + 1)) booked fuel
      (r.1, Ev.sleepSecs 10 :: r.2)

/-- Whether an event is a `book_shift` call on a scraped shift. -/
def isBookAttempt : Ev → Bool
  | .bookAttempt _ => true
  | _ => false

/-- Whether an event is the start of a search cycle. -/
def isCycleStart : Ev → Bool
  | .cycleStart _ => true
  | _ => false

/-- The `booked_shifts` list after `n` further cycles starting at cycle
`k`, ignoring interrupts: the fold of the cycle body. -/
def bookedAfter (cfg : Config) (env : LoopEnv) (k : Nat)
    (booked : List BookedShift) : Nat → List BookedShift
  | 0 => booked
  | n + 1 =>
    bookedAfter cfg env (k + 1) (cycleBody cfg (env.cycleAt k) booked).1 n

/-! ### Concrete witness environments -/

/-- A one-element scrape environment for witnesses: the first selector
finds element handle 5, only the title lookup succeeds. -/
def envScrapeW : ScrapeEnv where
  findElements := fun i => if i = 0 then some [5] else none
  fieldText := fun _ f => if f = .title then some "HCA Night" else none
  elemRaises := fun _ => false
  scanRaises := false

/-- A scrape environment where processing of the first element raises:
the selector finds handles 5 and 6 and element number 0 fails. -/
def envScrapeSkipW : ScrapeEnv where
  findElements := fun i => if i = 0 then some [5, 6] else none
  fieldText := fun _ _ => none
  elemRaises := fun i => decide (i = 0)
  scanRaises := false

/-- A scrape environment whose whole scan fails. -/
def envScrapeFailW : ScrapeEnv where
  findElements := fun _ => none
  fieldText := fun _ _ => none
  elemRaises := fun _ => false
  scanRaises := true

/-- A scrape environment where the first selector raises, the second
matches `[4]`. -/
def envScrapeOrderW : ScrapeEnv where
  findElements := fun i => if i = 0 then none else
    if i = 1 then some [4] else none
  fieldText := fun _ _ => none
  elemRaises := fun _ => false
  scanRaises := false

/-- A navigation environment where only the third XPath option is
clickable. -/
def envNavThirdW : NavEnv where
  clickable := fun i => decide (i = 2)
  directGetOk := true

/-- A navigation environment where no XPath option is clickable. -/
def envNavNoneW : NavEnv where
  clickable := fun _ => false
  directGetOk := true

def envBookOkW : BookEnv where
  scrollOk := fun _ => true
  bookButtonOk := fun _ => true
  confirmFound := fun _ => false
  successIndicatorAt := fun _ => none
  nowStr := fun _ => ""

def cenvOneW : CycleEnv where
  nav := { clickable := fun i => decide (i = 0), directGetOk := true }
  scrape :=
    { findElements := fun i => if i = 0 then some [0] else none
      fieldText := fun _ _ => none
      elemRaises := fun _ => false
      scanRaises := false }
  bookEnvAt := fun _ => envBookOkW

def lenvOneW : LoopEnv where
  cycleAt := fun _ => cenvOneW
  kiAt := fun _ => false
  outerExcAt := fun _ => false

def cfgW : Config := ⟨2, 7, 5, 3⟩

def envBookFailW : BookEnv where
  scrollOk := fun _ => true
  bookButtonOk := fun _ => false
  confirmFound := fun _ => false
  successIndicatorAt := fun _ => none
  nowStr := fun _ => ""

def envBookScrollFailW : BookEnv where
  scrollOk := fun _ => false
  bookButtonOk := fun _ => true
  confirmFound := fun _ => false
  successIndicatorAt := fun _ => none
  nowStr := fun _ => ""

def lenvEmailFailW : LoginEnv where
  loginButtonOk := fun _ => false
  iframeFound := fun _ => false
  emailFieldOk := fun _ => false
  passwordFieldOk := fun _ => true
  submitOk := fun _ => true

def cenvNavFailW : CycleEnv where
  nav := { clickable := fun _ => false, directGetOk := false }
  scrape :=
    { findElements := fun _ => none
      fieldText := fun _ _ => none
      elemRaises := fun _ => false
      scanRaises := false }
  bookEnvAt := fun _ => envBookOkW

def loopNavFailW : LoopEnv where
  cycleAt := fun _ => cenvNavFailW
  kiAt := fun _ => false
  outerExcAt := fun _ => false

def loopKiW : LoopEnv where
  cycleAt := fun _ => cenvNavFailW
  kiAt := fun k => decide (k = 1)
  outerExcAt := fun _ => false

def runEnvsW : Nat → RunEnv := fun j =>
  if j = 0 then ⟨false, lenvEmailFailW, loopKiW⟩
  else ⟨true, lenvEmailFailW, loopKiW⟩

/-! ## Theorems -/

set_option maxRecDepth 400000

/-- Claim C1, counterexample: the claim asserts that
`get_available_shifts` has bare `Returns:` documentation lines placed
outside any string literal, but scanning the file's actual text from
its start shows otherwise: after source lines 1-254 the tokenizer is
inside a triple-quoted string — the stray triple quote on line 206
opens a string that the first triple quote of line 253 closes, and the
trailing triple quote of line 253 opens a new one — and
the `Returns:` lines 255-256 contain no quote character, so they lie
wholly inside that string literal. -/
theorem claim_C1_counterexample :
    scanLines .code (srcL.take 254) = .ok .tripleD
      ∧ pyStrScan .tripleD getReturnsRegion.toList = .ok .tripleD
      ∧ quoteFree getReturnsRegion = true :=
  ⟨rfl, rfl, rfl⟩

/-- Claim C1 as amended: no operation described in the spec is
executable — importing the module fails with a `SyntaxError` before any
function can run.  Conjuncts, grounded in a scan of the file's text
from line 1: (1) scanning source lines 1-174 with bracket tracking hits
`SyntaxError: unmatched ']'` at line 174 — the `xpath_options` list
statement of `navigate_to_shifts` ends its last string item before the
XPath's closing bracket, so the bracket after the closing quote already
closes the list literal and the `]` on line 174 closes nothing; (2) the
same defect shown on the statement's own text; (3) `search_shifts`: the
tokenizer is outside any string at the start of line 203, and its
quote-free `Args:` lines 203-205 are bare code; (4)
`get_available_shifts`: the stray triple quote on line 206 leaves the
tokenizer inside a triple-quoted string at the start of line 253, and
(5) the state after line 253 is again inside a string (its trailing
triple quote reopens one), which swallows the `Returns:` lines 255-256;
(6) `book_shift`: the tokenizer is outside any string at the start of
line 339, and its quote-free `Args:`/`Returns:` lines 339-344 are bare
code. -/
theorem claim_C1_amended :
    scanLinesBr .code [] (srcL.take 174) = .error (.unmatched ']')
      ∧ pyScan .code [] navListStmt.toList = .error (.unmatched ']')
      ∧ (scanLines .code (srcL.take 202) = .ok .code
          ∧ quoteFree searchArgsRegion = true)
      ∧ scanLines .code (srcL.take 252) = .ok .tripleD
      ∧ scanLines .code (srcL.take 253) = .ok .tripleD
      ∧ (scanLines .code (srcL.take 338) = .ok .code
          ∧ quoteFree bookArgsRegion = true) :=
  ⟨rfl, rfl, ⟨rfl, rfl⟩, rfl, rfl, ⟨rfl, rfl⟩⟩

/-- Claim C6: every shift record returned by `get_available_shifts`
carries all five display fields (they are fields of `ShiftInfo`), and
each one equals the text its selector found, falling back to the
sentinel `'Unknown'` exactly when the lookup raised. -/
theorem claim_C6 (env : ScrapeEnv) (l : List ShiftInfo)
    (hl : get_available_shifts env = .ok l) (s : ShiftInfo) (hs : s ∈ l) :
    s.title = (env.fieldText s.element .title).getD "Unknown"
      ∧ s.location = (env.fieldText s.element .location).getD "Unknown"
      ∧ s.date = (env.fieldText s.element .date).getD "Unknown"
      ∧ s.time = (env.fieldText s.element .time).getD "Unknown"
      ∧ s.pay = (env.fieldText s.element .pay).getD "Unknown" := by
  unfold get_available_shifts get_available_shifts_core at hl
  by_cases hsc : env.scanRaises
  · simp [hsc] at hl
    subst hl
    cases hs
  · simp [hsc] at hl
    subst hl
    rcases List.mem_filterMap.mp hs with ⟨p, _hp, hbuild⟩
    by_cases he : env.elemRaises p.1
    · simp [he] at hbuild
    · simp [he] at hbuild
      subst hbuild
      exact ⟨rfl, rfl, rfl, rfl, rfl⟩

theorem claim_C6_witness :
    get_available_shifts envScrapeW = .ok [buildShiftInfo envScrapeW 0 5]
      ∧ ((buildShiftInfo envScrapeW 0 5).title
            = (envScrapeW.fieldText (buildShiftInfo envScrapeW 0 5).element
                .title).getD "Unknown"
        ∧ (buildShiftInfo envScrapeW 0 5).location
            = (envScrapeW.fieldText (buildShiftInfo envScrapeW 0 5).element
                .location).getD "Unknown"
        ∧ (buildShiftInfo envScrapeW 0 5).date
            = (envScrapeW.fieldText (buildShiftInfo envScrapeW 0 5).element
                .date).getD "Unknown"
        ∧ (buildShiftInfo envScrapeW 0 5).time
            = (envScrapeW.fieldText (buildShiftInfo envScrapeW 0 5).element
                .time).getD "Unknown"
        ∧ (buildShiftInfo envScrapeW 0 5).pay
            = (envScrapeW.fieldText (buildShiftInfo envScrapeW 0 5).element
                .pay).getD "Unknown") :=
  ⟨rfl,
   claim_C6 envScrapeW [buildShiftInfo envScrapeW 0 5] rfl
     (buildShiftInfo envScrapeW 0 5) (List.mem_singleton.mpr rfl)⟩

/-- Claim C9: `get_available_shifts` never propagates an exception to
its caller.  First conjunct: the result is always `.ok`.  Second and
third conjuncts: an element whose record assembly raises is skipped
while every other element still yields its record, so the scan is not
aborted.  Fourth conjunct: when the scan as a whole fails, the method
returns the empty list. -/
theorem claim_C9 :
    (∀ env : ScrapeEnv, ∃ l, get_available_shifts env = .ok l)
    ∧ (∀ (env : ScrapeEnv) (l : List ShiftInfo) (idx : Nat),
        get_available_shifts env = .ok l → env.elemRaises idx = true →
        ∀ s ∈ l, s.index ≠ idx)
    ∧ (∀ (env : ScrapeEnv) (l : List ShiftInfo) (p : Nat × Nat),
        env.scanRaises = false → get_available_shifts env = .ok l →
        p ∈ (findShiftElements env [] [0, 1, 2]).enum →
        env.elemRaises p.1 = false → buildShiftInfo env p.1 p.2 ∈ l)
    ∧ (∀ env : ScrapeEnv, env.scanRaises = true →
        get_available_shifts env = .ok []) := by
  refine ⟨?_, ?_, ?_, ?_⟩
  · intro env
    unfold get_available_shifts
    cases get_available_shifts_core env with
    | ok l => exact ⟨l, rfl⟩
    | error e => exact ⟨[], rfl⟩
  · intro env l idx hl he s hs
    unfold get_available_shifts get_available_shifts_core at hl
    by_cases hsc : env.scanRaises
    · simp [hsc] at hl; subst hl; cases hs
    · simp [hsc] at hl
      subst hl
      rcases List.mem_filterMap.mp hs with ⟨p, _hp, hbuild⟩
      by_cases hep : env.elemRaises p.1
      · simp [hep] at hbuild
      · simp [hep] at hbuild
        subst hbuild
        intro hcontra
        rw [show (buildShiftInfo env p.1 p.2).index = p.1 from rfl] at hcontra
        rw [hcontra] at hep
        exact hep he
  · intro env l p hsc hl hp hep
    unfold get_available_shifts get_available_shifts_core at hl
    simp [hsc] at hl
    subst hl
    exact List.mem_filterMap.mpr ⟨p, hp, by simp [hep]⟩
  · intro env hsc
    unfold get_available_shifts get_available_shifts_core
    simp [hsc]

theorem claim_C9_witness :
    (∃ l, get_available_shifts envScrapeSkipW = .ok l)
      ∧ (∀ s ∈ [buildShiftInfo envScrapeSkipW 1 6], s.index ≠ 0)
      ∧ buildShiftInfo envScrapeSkipW 1 6 ∈ [buildShiftInfo envScrapeSkipW 1 6]
      ∧ get_available_shifts envScrapeFailW = .ok [] :=
  ⟨claim_C9.1 envScrapeSkipW,
   claim_C9.2.1 envScrapeSkipW [buildShiftInfo envScrapeSkipW 1 6] 0 rfl rfl,
   claim_C9.2.2.1 envScrapeSkipW [buildShiftInfo envScrapeSkipW 1 6] (1, 6)
     rfl rfl (by simp [envScrapeSkipW, findShiftElements, List.enum]) rfl,
   claim_C9.2.2.2 envScrapeFailW rfl⟩

/-- Claim C7: candidate selectors are tried in their listed order and
the first success wins.  First conjunct: `get_available_shifts` uses
the shift elements matched by the first selector in its list that
yields a non-empty match (earlier selectors either raised, giving
`none`, or matched nothing).  Second conjunct: `navigate_to_shifts`
clicks the first of its XPath options that is clickable.  Third
conjunct: when every candidate fails, it falls back to the direct
search-shifts URL (and only then — a click on option `i` is only
reported when all earlier options failed, by the second conjunct). -/
theorem claim_C7 :
    (∀ (env : ScrapeEnv) (i : Nat) (l : List Nat),
      i < 3 → env.findElements i = some l → l ≠ [] →
      (∀ j, j < i → ∀ l', env.findElements j = some l' → l' = []) →
      findShiftElements env [] [0, 1, 2] = l)
    ∧ (∀ (env : NavEnv) (i : Nat),
      i < 4 → env.clickable i = true →
      (∀ j, j < i → env.clickable j = false) →
      navigate_to_shifts env = .ok (.clicked i))
    ∧ (∀ env : NavEnv,
      (∀ i, i < 4 → env.clickable i = false) →
      navigate_to_shifts env
        = if env.directGetOk then .ok .directUrl else .error ()) := by
  refine ⟨?_, ?_, ?_⟩
  · intro env i l hi hfind hne hprev
    have hne' : l.isEmpty = false := by
      cases l with
      | nil => exact absurd rfl hne
      | cons a t => rfl
    interval_cases i
    · simp [findShiftElements, hfind, hne']
    · cases h0 : env.findElements 0 with
      | none => simp [findShiftElements, h0, hfind, hne']
      | some l0 =>
        have : l0 = [] := hprev 0 (by omega) l0 h0
        subst this
        simp [findShiftElements, h0, hfind, hne']
    · cases h0 : env.findElements 0 with
      | none =>
        cases h1 : env.findElements 1 with
        | none => simp [findShiftElements, h0, h1, hfind, hne']
        | some l1 =>
          have : l1 = [] := hprev 1 (by omega) l1 h1
          subst this
          simp [findShiftElements, h0, h1, hfind, hne']
      | some l0 =>
        have : l0 = [] := hprev 0 (by omega) l0 h0
        subst this
        cases h1 : env.findElements 1 with
        | none => simp [findShiftElements, h0, h1, hfind, hne']
        | some l1 =>
          have : l1 = [] := hprev 1 (by omega) l1 h1
          subst this
          simp [findShiftElements, h0, h1, hfind, hne']
  · intro env i hi hci hprev
    interval_cases i
    · simp [navigate_to_shifts, navFirstClickable, hci]
    · simp [navigate_to_shifts, navFirstClickable, hci,
        hprev 0 (by omega)]
    · simp [navigate_to_shifts, navFirstClickable, hci,
        hprev 0 (by omega), hprev 1 (by omega)]
    · simp [navigate_to_shifts, navFirstClickable, hci,
        hprev 0 (by omega), hprev 1 (by omega), hprev 2 (by omega)]
  · intro env hall
    simp [navigate_to_shifts, navFirstClickable,
      hall 0 (by omega), hall 1 (by omega), hall 2 (by omega),
      hall 3 (by omega)]

theorem claim_C7_witness :
    findShiftElements envScrapeOrderW [] [0, 1, 2] = [4]
      ∧ navigate_to_shifts envNavThirdW = .ok (.clicked 2)
      ∧ navigate_to_shifts envNavNoneW
          = (if envNavNoneW.directGetOk then .ok .directUrl else .error ()) :=
  ⟨claim_C7.1 envScrapeOrderW 1 [4] (by omega) rfl (by simp)
     (by
       intro j hj l' h
       interval_cases j
       simp [envScrapeOrderW] at h),
   claim_C7.2.1 envNavThirdW 2 (by omega) rfl
     (by
       intro j hj
       interval_cases j <;> rfl),
   claim_C7.2.2 envNavNoneW (fun i _ => rfl)⟩

lemma book_shift_cases (cfg : Config) (env : BookEnv) (t d : String)
    (bk : List BookedShift) (r : Nat) :
    ((book_shift cfg env t d bk r).1 = true
      ∧ ∃ rec, (book_shift cfg env t d bk r).2.1 = bk ++ [rec])
    ∨ ((book_shift cfg env t d bk r).1 = false
      ∧ (book_shift cfg env t d bk r).2.1 = bk) := by
  induction r using book_shift.induct cfg env t d bk with
  | case1 x h1 h2 =>
    left
    rw [book_shift]
    simp [h1, h2]
  | case2 x h1 h2 h3 ih =>
    rw [book_shift]
    simp only [h1, h2, h3, if_true, if_false, Bool.false_eq_true,
      ite_true, ite_false]
    simpa using ih
  | case3 x h1 h2 h3 =>
    right
    rw [book_shift]
    simp [h1, h2, h3]
  | case4 x h1 h2 ih =>
    rw [book_shift]
    simp only [h1, h2, Bool.false_eq_true, ite_true, ite_false, if_false]
    simpa using ih
  | case5 x h1 h2 =>
    right
    rw [book_shift]
    simp [h1, h2]

lemma book_shift_retry_bound (cfg : Config) (env : BookEnv) (t d : String)
    (bk : List BookedShift) (r : Nat) :
    (book_shift cfg env t d bk r).2.2.count Ev.retryLogged
      ≤ cfg.maxRetryAttempts - r := by
  induction r using book_shift.induct cfg env t d bk with
  | case1 x h1 h2 =>
    rw [book_shift]
    by_cases hc : env.confirmFound x = true <;>
      simp [h1, h2, hc, List.count_append, List.count_cons]
  | case2 x h1 h2 h3 ih =>
    rw [book_shift]
    simp only [h1, h2, h3, Bool.false_eq_true, if_true, if_false,
      ite_true, ite_false]
    simp only [List.count_append, List.count_cons, List.count_nil]
    have : (Ev.sleepSecs cfg.retryDelaySeconds == Ev.retryLogged) = false := by
      simp
    simp [this]
    omega
  | case3 x h1 h2 h3 =>
    rw [book_shift]
    simp [h1, h2, h3, List.count_append, List.count_cons]
  | case4 x h1 h2 ih =>
    rw [book_shift]
    simp only [h1, h2, Bool.false_eq_true, ite_true, ite_false, if_false]
    simp only [List.count_append, List.count_cons, List.count_nil]
    have : (Ev.sleepSecs cfg.retryDelaySeconds == Ev.retryLogged) = false := by
      simp
    simp [this]
    omega
  | case5 x h1 h2 =>
    rw [book_shift]
    simp [h1, h2]

lemma book_shift_button_fail (cfg : Config) (env : BookEnv) (t d : String)
    (bk : List BookedShift)
    (hb : ∀ j, env.bookButtonOk j = false)
    (hs : ∀ j, env.scrollOk j = true) (r : Nat) :
    (book_shift cfg env t d bk r).1 = false
      ∧ (book_shift cfg env t d bk r).2.1 = bk
      ∧ (book_shift cfg env t d bk r).2.2.count Ev.retryLogged
          = cfg.maxRetryAttempts - r := by
  induction r using book_shift.induct cfg env t d bk with
  | case1 x h1 h2 => rw [hb x] at h2; cases h2
  | case2 x h1 h2 h3 ih =>
    rw [book_shift]
    simp only [h1, h2, h3, Bool.false_eq_true, if_true, if_false,
      ite_true, ite_false]
    refine ⟨ih.1, ih.2.1, ?_⟩
    simp only [List.count_append, List.count_cons, List.count_nil]
    have : (Ev.sleepSecs cfg.retryDelaySeconds == Ev.retryLogged) = false := by
      simp
    simp [this, ih.2.2]
    omega
  | case3 x h1 h2 h3 =>
    rw [book_shift]
    simp [h1, h2, h3]
    omega
  | case4 x h1 h2 ih => rw [hs x] at h1; simp at h1
  | case5 x h1 h2 => rw [hs x] at h1; simp at h1

lemma login_refresh_bound (cfg : Config) (env : LoginEnv) (r : Nat) :
    (login cfg env r).2.count Ev.refresh ≤ cfg.maxRetryAttempts - r := by
  induction r using login.induct cfg env with
  | case1 x h1 h2 h3 =>
    rw [login]
    simp [h1, h2, h3, List.count_append, List.count_cons,
      apply_ite (List.count Ev.refresh)]
  | case2 x h1 h2 h3 =>
    rw [login]
    simp [h1, h2, h3, List.count_append, List.count_cons,
      apply_ite (List.count Ev.refresh)]
  | case3 x h1 h2 =>
    rw [login]
    simp [h1, h2, List.count_append, List.count_cons,
      apply_ite (List.count Ev.refresh)]
  | case4 x h1 h2 ih =>
    rw [login]
    simp only [h1, h2, Bool.false_eq_true, ite_true, ite_false, if_false]
    simp [List.count_append, List.count_cons,
      apply_ite (List.count Ev.refresh)]
    omega
  | case5 x h1 h2 =>
    rw [login]
    simp [h1, h2, List.count_append, List.count_cons,
      apply_ite (List.count Ev.refresh)]

lemma login_email_fail (cfg : Config) (env : LoginEnv)
    (he : ∀ j, env.emailFieldOk j = false) (r : Nat) :
    (login cfg env r).1 = .error ()
      ∧ (login cfg env r).2.count Ev.refresh
          = cfg.maxRetryAttempts - r := by
  induction r using login.induct cfg env with
  | case1 x h1 h2 h3 => rw [he x] at h1; cases h1
  | case2 x h1 h2 h3 => rw [he x] at h1; cases h1
  | case3 x h1 h2 => rw [he x] at h1; cases h1
  | case4 x h1 h2 ih =>
    rw [login]
    simp only [h1, h2, Bool.false_eq_true, ite_true, ite_false, if_false]
    refine ⟨ih.1, ?_⟩
    simp [List.count_append, List.count_cons,
      apply_ite (List.count Ev.refresh), ih.2]
    omega
  | case5 x h1 h2 =>
    rw [login]
    simp only [h1, h2, Bool.false_eq_true, ite_true, ite_false, if_false]
    refine ⟨trivial, ?_⟩
    simp [List.count_append, List.count_cons,
      apply_ite (List.count Ev.refresh)]
    omega

lemma login_retry_step (cfg : Config) (env : LoginEnv) (r : Nat)
    (he : env.emailFieldOk r = false) (hr : r < cfg.maxRetryAttempts) :
    login cfg env r
      = ((login cfg env (r + 1)).1,
         ([Ev.sleepSecs 3]
           ++ (if env.loginButtonOk r then [Ev.sleepSecs 2] else [])
           ++ (if env.iframeFound r then [Ev.sleepSecs 1] else []))
          ++ [Ev.sleepSecs cfg.retryDelaySeconds, Ev.refresh]
          ++ (login cfg env (r + 1)).2) := by
  rw [login]
  simp [he, hr]

lemma book_shift_scroll_fail (cfg : Config) (env : BookEnv) (t d : String)
    (bk : List BookedShift)
    (hs : ∀ j, env.scrollOk j = false) (r : Nat) :
    (book_shift cfg env t d bk r).1 = false
      ∧ (book_shift cfg env t d bk r).2.1 = bk
      ∧ (book_shift cfg env t d bk r).2.2.count Ev.retryLogged
          = cfg.maxRetryAttempts - r := by
  induction r using book_shift.induct cfg env t d bk with
  | case1 x h1 h2 => rw [hs x] at h1; cases h1
  | case2 x h1 h2 h3 ih => rw [hs x] at h1; cases h1
  | case3 x h1 h2 h3 => rw [hs x] at h1; cases h1
  | case4 x h1 h2 ih =>
    rw [book_shift]
    simp only [hs x, Bool.false_eq_true, ite_false, h2, ite_true]
    refine ⟨ih.1, ih.2.1, ?_⟩
    simp [List.count_append, List.count_cons, ih.2.2]
    omega
  | case5 x h1 h2 =>
    rw [book_shift]
    simp only [hs x, Bool.false_eq_true, ite_false, h2]
    simp
    omega

lemma bookAll_monotone (cfg : Config) (env : CycleEnv) :
    ∀ (shifts : List ShiftInfo) (bk : List BookedShift),
      ∃ t, (bookAll cfg env shifts bk).1 = bk ++ t := by
  intro shifts
  induction shifts with
  | nil => intro bk; exact ⟨[], by simp [bookAll]⟩
  | cons s rest ih =>
    intro bk
    rcases book_shift_cases cfg (env.bookEnvAt s.index) s.title s.date bk 0
      with ⟨_, rec, hl⟩ | ⟨_, hl⟩
    · rcases ih (book_shift cfg (env.bookEnvAt s.index) s.title s.date bk 0).2.1
        with ⟨t2, ht2⟩
      refine ⟨[rec] ++ t2, ?_⟩
      simp only [bookAll]
      rw [ht2, hl]
      simp
    · rcases ih (book_shift cfg (env.bookEnvAt s.index) s.title s.date bk 0).2.1
        with ⟨t2, ht2⟩
      refine ⟨t2, ?_⟩
      simp only [bookAll]
      rw [ht2, hl]

lemma cycleBody_monotone (cfg : Config) (env : CycleEnv)
    (bk : List BookedShift) :
    ∃ t, (cycleBody cfg env bk).1 = bk ++ t := by
  unfold cycleBody
  cases navigate_to_shifts env.nav with
  | error e => exact ⟨[], by simp⟩
  | ok nv =>
    cases hg : get_available_shifts env.scrape with
    | error e => exact ⟨[], by simp⟩
    | ok shifts => simpa using bookAll_monotone cfg env shifts bk

lemma bookingLoop_monotone (cfg : Config) (lenv : LoopEnv) :
    ∀ (n k : Nat) (bk : List BookedShift),
      ∃ t, ((bookingLoop cfg lenv k bk n).1).booked = bk ++ t := by
  intro n
  induction n with
  | zero => intro k bk; exact ⟨[], by simp [bookingLoop, LoopResult.booked]⟩
  | succ n ih =>
    intro k bk
    by_cases hki : lenv.kiAt k
    · exact ⟨[], by simp [bookingLoop, hki, LoopResult.booked]⟩
    · by_cases hexc : lenv.outerExcAt k
      · rcases cycleBody_monotone cfg (lenv.cycleAt k) bk with ⟨t, ht⟩
        refine ⟨t, ?_⟩
        simp [bookingLoop, hki, hexc, LoopResult.booked, ht]
      · rcases cycleBody_monotone cfg (lenv.cycleAt k) bk with ⟨t, ht⟩
        rcases ih (k + 1) (cycleBody cfg (lenv.cycleAt k) bk).1 with ⟨t2, ht2⟩
        refine ⟨t ++ t2, ?_⟩
        simp [bookingLoop, hki, hexc]
        rw [ht2, ht]
        simp

lemma cycleBody_nav_error (cfg : Config) (cenv : CycleEnv)
    (bk : List BookedShift) (h : navigate_to_shifts cenv.nav = .error ()) :
    cycleBody cfg cenv bk = (bk, [Ev.cycleErrorLogged]) := by
  unfold cycleBody
  rw [h]

lemma bookingLoop_step (cfg : Config) (lenv : LoopEnv) (k : Nat)
    (bk : List BookedShift) (fuel : Nat)
    (hki : lenv.kiAt k = false) (hexc : lenv.outerExcAt k = false) :
    bookingLoop cfg lenv k bk (fuel + 1)
      = ((bookingLoop cfg lenv (k + 1)
            (cycleBody cfg (lenv.cycleAt k) bk).1 fuel).1,
         Ev.cycleStart k :: (cycleBody cfg (lenv.cycleAt k) bk).2
           ++ [Ev.sleepSecs (cfg.searchIntervalMinutes * 60)]
           ++ (bookingLoop cfg lenv (k + 1)
                 (cycleBody cfg (lenv.cycleAt k) bk).1 fuel).2) := by
  simp [bookingLoop, hki, hexc]

lemma book_shift_trace_events (cfg : Config) (env : BookEnv)
    (t d : String) (bk : List BookedShift) (r : Nat) :
    ∀ e ∈ (book_shift cfg env t d bk r).2.2,
      (∃ m, e = Ev.sleepSecs m) ∨ e = Ev.retryLogged := by
  induction r using book_shift.induct cfg env t d bk with
  | case1 x h1 h2 =>
    rw [book_shift]
    by_cases hc : env.confirmFound x = true <;>
      simp [h1, h2, hc]
  | case2 x h1 h2 h3 ih =>
    rw [book_shift]
    simp only [h1, h2, h3, Bool.false_eq_true, if_true, if_false,
      ite_true, ite_false]
    intro e he
    simp only [List.mem_append, List.mem_cons, List.not_mem_nil, or_false] at he
    rcases he with (h | h | h) | h
    · exact .inl ⟨1, h⟩
    · exact .inr h
    · exact .inl ⟨cfg.retryDelaySeconds, h⟩
    · exact ih e h
  | case3 x h1 h2 h3 =>
    rw [book_shift]
    simp [h1, h2, h3]
  | case4 x h1 h2 ih =>
    rw [book_shift]
    simp only [h1, h2, Bool.false_eq_true, ite_true, ite_false, if_false]
    intro e he
    simp only [List.mem_append, List.mem_cons, List.not_mem_nil, or_false] at he
    rcases he with (h | h) | h
    · exact .inr h
    · exact .inl ⟨cfg.retryDelaySeconds, h⟩
    · exact ih e h
  | case5 x h1 h2 =>
    rw [book_shift]
    simp [h1, h2]

lemma bookAll_cycleStart_free (cfg : Config) (cenv : CycleEnv) :
    ∀ (shifts : List ShiftInfo) (bk : List BookedShift),
      (bookAll cfg cenv shifts bk).2.countP isCycleStart = 0 := by
  intro shifts
  induction shifts with
  | nil => intro bk; simp [bookAll]
  | cons s rest ih =>
    intro bk
    simp only [bookAll, List.countP_cons, List.countP_append]
    have hbs : (book_shift cfg (cenv.bookEnvAt s.index)
        s.title s.date bk 0).2.2.countP isCycleStart = 0 := by
      rw [List.countP_eq_zero]
      intro e he
      rcases book_shift_trace_events cfg (cenv.bookEnvAt s.index)
          s.title s.date bk 0 e he with ⟨m, hm⟩ | hm <;>
        simp [hm, isCycleStart]
    rw [hbs, ih]
    simp [isCycleStart]

lemma cycleBody_cycleStart_free (cfg : Config) (cenv : CycleEnv)
    (bk : List BookedShift) :
    (cycleBody cfg cenv bk).2.countP isCycleStart = 0 := by
  unfold cycleBody
  cases navigate_to_shifts cenv.nav with
  | error e => simp [isCycleStart]
  | ok nv =>
    cases get_available_shifts cenv.scrape with
    | error e => simp [isCycleStart]
    | ok shifts => simpa using bookAll_cycleStart_free cfg cenv shifts bk

lemma bookAll_attempt_count (cfg : Config) (cenv : CycleEnv) :
    ∀ (shifts : List ShiftInfo) (bk : List BookedShift),
      (bookAll cfg cenv shifts bk).2.countP isBookAttempt = shifts.length := by
  intro shifts
  induction shifts with
  | nil => intro bk; simp [bookAll]
  | cons s rest ih =>
    intro bk
    simp only [bookAll, List.countP_cons, List.countP_append]
    have hbs : (book_shift cfg (cenv.bookEnvAt s.index)
        s.title s.date bk 0).2.2.countP isBookAttempt = 0 := by
      rw [List.countP_eq_zero]
      intro e he
      rcases book_shift_trace_events cfg (cenv.bookEnvAt s.index)
          s.title s.date bk 0 e he with ⟨m, hm⟩ | hm <;>
        simp [hm, isBookAttempt]
    rw [hbs, ih]
    simp [isBookAttempt, List.length_cons]
    omega

lemma bookingLoop_no_stop (cfg : Config) (lenv : LoopEnv)
    (hki : ∀ j, lenv.kiAt j = false)
    (hexc : ∀ j, lenv.outerExcAt j = false) :
    ∀ (n k : Nat) (bk : List BookedShift),
      (bookingLoop cfg lenv k bk n).1
          = .outOfFuel (bookedAfter cfg lenv k bk n)
        ∧ (bookingLoop cfg lenv k bk n).2.countP isCycleStart = n := by
  intro n
  induction n with
  | zero => intro k bk; simp [bookingLoop, bookedAfter]
  | succ n ih =>
    intro k bk
    rw [bookingLoop_step cfg lenv k bk n (hki k) (hexc k)]
    rcases ih (k + 1) (cycleBody cfg (lenv.cycleAt k) bk).1 with ⟨h1, h2⟩
    constructor
    · rw [h1]; rfl
    · simp only [List.countP_cons, List.countP_append, h2,
        cycleBody_cycleStart_free]
      simp [isCycleStart]
      omega

lemma bookingLoop_interrupted (cfg : Config) (lenv : LoopEnv) :
    ∀ (n k : Nat) (bk bk2 : List BookedShift) (t : List Ev),
      bookingLoop cfg lenv k bk n = (.interrupted bk2, t) →
      ∃ j, lenv.kiAt j = true := by
  intro n
  induction n with
  | zero => intro k bk bk2 t h; simp [bookingLoop] at h
  | succ n ih =>
    intro k bk bk2 t h
    by_cases hki : lenv.kiAt k
    · exact ⟨k, hki⟩
    · by_cases hexc : lenv.outerExcAt k
      · simp [bookingLoop, hki, hexc] at h
      · rw [bookingLoop_step cfg lenv k bk n
          (by simpa using hki) (by simpa using hexc)] at h
        have h1 := congrArg Prod.fst h
        simp only [] at h1
        rcases hres : (bookingLoop cfg lenv (k + 1)
            (cycleBody cfg (lenv.cycleAt k) bk).1 n) with ⟨lr, lt⟩
        rw [hres] at h1
        cases lr with
        | interrupted b =>
          exact ih (k + 1) (cycleBody cfg (lenv.cycleAt k) bk).1 b lt hres
        | fatal b => simp at h1
        | outOfFuel b => simp at h1

/-- Claim C2: the in-memory `booked_shifts` list is append-only and
accumulates successfully booked shifts.  First conjunct: `__init__`
starts it empty.  Second conjunct: a `book_shift` call appends exactly
one record when and only when it returns `True`, and leaves the list
unchanged when it returns `False`.  Third conjunct: across any run of
the search-and-book loop the list only ever grows by appended records —
no record is removed or modified. -/
theorem claim_C2 :
    initialBookedShifts = []
    ∧ (∀ (cfg : Config) (env : BookEnv) (t d : String)
        (bk : List BookedShift) (r : Nat),
        ((book_shift cfg env t d bk r).1 = true
          ↔ ∃ rec, (book_shift cfg env t d bk r).2.1 = bk ++ [rec])
        ∧ ((book_shift cfg env t d bk r).1 = false
          → (book_shift cfg env t d bk r).2.1 = bk))
    ∧ (∀ (cfg : Config) (lenv : LoopEnv) (k : Nat)
        (bk : List BookedShift) (n : Nat),
        ∃ t, ((bookingLoop cfg lenv k bk n).1).booked = bk ++ t) := by
  refine ⟨rfl, ?_, ?_⟩
  · intro cfg env t d bk r
    rcases book_shift_cases cfg env t d bk r with ⟨hb, rec, hl⟩ | ⟨hb, hl⟩
    · refine ⟨⟨fun _ => ⟨rec, hl⟩, fun _ => hb⟩, ?_⟩
      intro hf; rw [hb] at hf; cases hf
    · refine ⟨⟨?_, ?_⟩, fun _ => hl⟩
      · intro ht; rw [hb] at ht; cases ht
      · rintro ⟨rec, hrec⟩
        rw [hl] at hrec
        simp at hrec
  · intro cfg lenv k bk n
    exact bookingLoop_monotone cfg lenv n k bk

/-- Claim C3: retries are bounded for login-field and booking-click
failures, and both retry recursions terminate (the model functions are
total, with `retry_count` strictly increasing toward the bound at each
recursive call).  Conjuncts: (1) `login` refreshes (= retries) at most
`MAX_RETRY_ATTEMPTS - retry_count` times; (2) when the email field is
never found, `login` raises after exactly `MAX_RETRY_ATTEMPTS` retries;
(3) each retry is preceded by a `RETRY_DELAY_SECONDS` sleep and a
refresh; (4) `book_shift` logs at most `MAX_RETRY_ATTEMPTS -
retry_count` retries; (5) when the book/apply button is never found,
`book_shift` returns `False` after exactly `MAX_RETRY_ATTEMPTS`
retries; (6) likewise when the booking attempt raises (scroll script
failure caught by the outer handler). -/
theorem claim_C3 :
    (∀ (cfg : Config) (env : LoginEnv) (r : Nat),
      (login cfg env r).2.count Ev.refresh ≤ cfg.maxRetryAttempts - r)
    ∧ (∀ (cfg : Config) (env : LoginEnv),
      (∀ j, env.emailFieldOk j = false) →
      (login cfg env 0).1 = .error ()
        ∧ (login cfg env 0).2.count Ev.refresh = cfg.maxRetryAttempts)
    ∧ (∀ (cfg : Config) (env : LoginEnv) (r : Nat),
      env.emailFieldOk r = false → r < cfg.maxRetryAttempts →
      login cfg env r
        = ((login cfg env (r + 1)).1,
           ([Ev.sleepSecs 3]
             ++ (if env.loginButtonOk r then [Ev.sleepSecs 2] else [])
             ++ (if env.iframeFound r then [Ev.sleepSecs 1] else []))
            ++ [Ev.sleepSecs cfg.retryDelaySeconds, Ev.refresh]
            ++ (login cfg env (r + 1)).2))
    ∧ (∀ (cfg : Config) (env : BookEnv) (t d : String)
        (bk : List BookedShift) (r : Nat),
      (book_shift cfg env t d bk r).2.2.count Ev.retryLogged
        ≤ cfg.maxRetryAttempts - r)
    ∧ (∀ (cfg : Config) (env : BookEnv) (t d : String)
        (bk : List BookedShift),
      (∀ j, env.bookButtonOk j = false) → (∀ j, env.scrollOk j = true) →
      (book_shift cfg env t d bk 0).1 = false
        ∧ (book_shift cfg env t d bk 0).2.2.count Ev.retryLogged
            = cfg.maxRetryAttempts)
    ∧ (∀ (cfg : Config) (env : BookEnv) (t d : String)
        (bk : List BookedShift),
      (∀ j, env.scrollOk j = false) →
      (book_shift cfg env t d bk 0).1 = false
        ∧ (book_shift cfg env t d bk 0).2.2.count Ev.retryLogged
            = cfg.maxRetryAttempts) := by
  refine ⟨login_refresh_bound, ?_, login_retry_step, ?_, ?_, ?_⟩
  · intro cfg env he
    have := login_email_fail cfg env he 0
    simpa using this
  · intro cfg env t d bk r
    exact book_shift_retry_bound cfg env t d bk r
  · intro cfg env t d bk hb hs
    have := book_shift_button_fail cfg env t d bk hb hs 0
    exact ⟨this.1, by simpa using this.2.2⟩
  · intro cfg env t d bk hs
    have := book_shift_scroll_fail cfg env t d bk hs 0
    exact ⟨this.1, by simpa using this.2.2⟩

/-- Claim C4: every exception raised inside one search-and-book cycle
is caught and logged and the loop proceeds.  First conjunct: when
navigation raises — the only step of the cycle that can raise, since
`search_shifts` swallows all its errors, `get_available_shifts` never
raises (claim C9) and `book_shift` returns `False` instead of raising —
the cycle body catches it, logs it, and leaves `booked_shifts`
unchanged.  Second conjunct: after any cycle body, failed or not, the
loop's result is that of the continuation from the next cycle.  Third
conjunct: with no interrupt, every one of `n` fuelled cycles starts,
whatever happens inside the bodies. -/
theorem claim_C4 :
    (∀ (cfg : Config) (cenv : CycleEnv) (bk : List BookedShift),
      navigate_to_shifts cenv.nav = .error () →
      cycleBody cfg cenv bk = (bk, [Ev.cycleErrorLogged]))
    ∧ (∀ (cfg : Config) (lenv : LoopEnv) (k : Nat)
        (bk : List BookedShift) (fuel : Nat),
      lenv.kiAt k = false → lenv.outerExcAt k = false →
      (bookingLoop cfg lenv k bk (fuel + 1)).1
        = (bookingLoop cfg lenv (k + 1)
            (cycleBody cfg (lenv.cycleAt k) bk).1 fuel).1)
    ∧ (∀ (cfg : Config) (lenv : LoopEnv),
      (∀ j, lenv.kiAt j = false) → (∀ j, lenv.outerExcAt j = false) →
      ∀ (n k : Nat) (bk : List BookedShift),
        (bookingLoop cfg lenv k bk n).2.countP isCycleStart = n) := by
  refine ⟨cycleBody_nav_error, ?_, ?_⟩
  · intro cfg lenv k bk fuel hki hexc
    rw [bookingLoop_step cfg lenv k bk fuel hki hexc]
  · intro cfg lenv hki hexc n k bk
    exact (bookingLoop_no_stop cfg lenv hki hexc n k bk).2

/-- Claim C8: `run_continuous_booking` repeats the search-and-book
cycle indefinitely at a fixed interval.  First conjunct: with no
interrupt and no escaping exception the loop never terminates — for
every fuel bound `n` it is still running after `n` full cycles.  Second
conjunct: consecutive cycles are separated by exactly one sleep of
`SEARCH_INTERVAL_MINUTES * 60` seconds.  Third conjunct: the loop exits
only on `KeyboardInterrupt` — an interrupted outcome implies a
`KeyboardInterrupt` fired in some cycle. -/
theorem claim_C8 :
    (∀ (cfg : Config) (lenv : LoopEnv),
      (∀ j, lenv.kiAt j = false) → (∀ j, lenv.outerExcAt j = false) →
      ∀ (n k : Nat) (bk : List BookedShift),
        (bookingLoop cfg lenv k bk n).1
          = .outOfFuel (bookedAfter cfg lenv k bk n))
    ∧ (∀ (cfg : Config) (lenv : LoopEnv) (k : Nat)
        (bk : List BookedShift) (fuel : Nat),
      lenv.kiAt k = false → lenv.outerExcAt k = false →
      (bookingLoop cfg lenv k bk (fuel + 1)).2
        = Ev.cycleStart k :: (cycleBody cfg (lenv.cycleAt k) bk).2
            ++ [Ev.sleepSecs (cfg.searchIntervalMinutes * 60)]
            ++ (bookingLoop cfg lenv (k + 1)
                  (cycleBody cfg (lenv.cycleAt k) bk).1 fuel).2)
    ∧ (∀ (cfg : Config) (lenv : LoopEnv) (n k : Nat)
        (bk bk2 : List BookedShift) (t : List Ev),
      bookingLoop cfg lenv k bk n = (.interrupted bk2, t) →
      ∃ j, lenv.kiAt j = true) := by
  refine ⟨?_, ?_, ?_⟩
  · intro cfg lenv hki hexc n k bk
    exact (bookingLoop_no_stop cfg lenv hki hexc n k bk).1
  · intro cfg lenv k bk fuel hki hexc
    rw [bookingLoop_step cfg lenv k bk fuel hki hexc]
  · intro cfg lenv n k bk bk2 t h
    exact bookingLoop_interrupted cfg lenv n k bk bk2 t h

/-- Claim C5: any crash that escapes the main loop other than a manual
interrupt — `setup_driver` raising, `login` raising, or an ordinary
exception escaping the `while` loop — is caught by the handler at
source line 496, which waits 10 seconds (`Ev.sleepSecs 10` in the
trace) and then restarts the entire continuous-booking process: the
continuation is `run_continuous_booking` itself on the next incarnation
environment, and its trace begins with driver setup (followed by login
and the loop). -/
theorem claim_C5 (cfg : Config) (envs : Nat → RunEnv)
    (bk : List BookedShift) (fuel : Nat)
    (hcrash : (envs 0).setupOk = false
      ∨ ((envs 0).setupOk = true
          ∧ (login cfg (envs 0).loginEnv 0).1 = .error ())
      ∨ ((envs 0).setupOk = true
          ∧ (login cfg (envs 0).loginEnv 0).1 = .ok ()
          ∧ ∃ bk2 t,
              bookingLoop cfg (envs 0).loopEnv 1 bk fuel = (.fatal bk2, t))) :
    ∃ (pre : List Ev) (bk2 : List BookedShift),
      run_continuous_booking cfg envs bk (fuel + 1)
        = ((run_continuous_booking cfg (fun i => envs (i + 1)) bk2 fuel).1,
           pre ++ Ev.sleepSecs 10
             :: (run_continuous_booking cfg (fun i => envs (i + 1)) bk2 fuel).2)
      ∧ (∀ f2, (envs 1).setupOk = true →
          ((run_continuous_booking cfg (fun i => envs (i + 1)) bk2 (f2 + 1)).2).head?
            = some Ev.setupDriver) := by
  have hrestart : ∀ (bk2 : List BookedShift) (f2 : Nat),
      (envs 1).setupOk = true →
      ((run_continuous_booking cfg (fun i => envs (i + 1)) bk2 (f2 + 1)).2).head?
        = some Ev.setupDriver := by
    intro bk2 f2 hs1
    rw [run_continuous_booking]
    simp only [hs1, if_true]
    rcases hlg : login cfg (envs 1).loginEnv 0 with ⟨res, lt⟩
    cases res with
    | ok u =>
      rcases hbl : bookingLoop cfg (envs 1).loopEnv 1 bk2 f2 with ⟨lr, lt2⟩
      cases lr <;> simp [hlg, hbl]
    | error e => simp [hlg]
  rcases hcrash with hsetup | ⟨hsetup, hlogin⟩ | ⟨hsetup, hlogin, bk2, t, hloop⟩
  · refine ⟨[], bk, ?_, hrestart bk⟩
    rw [run_continuous_booking]
    simp [hsetup]
  · refine ⟨Ev.setupDriver :: (login cfg (envs 0).loginEnv 0).2, bk,
      ?_, hrestart bk⟩
    rw [run_continuous_booking]
    rcases hlg : login cfg (envs 0).loginEnv 0 with ⟨res, lt⟩
    rw [hlg] at hlogin
    simp only [] at hlogin
    subst hlogin
    simp [hsetup, hlg]
  · refine ⟨Ev.setupDriver :: (login cfg (envs 0).loginEnv 0).2
      ++ [Ev.loginDone] ++ t, bk2, ?_, hrestart bk2⟩
    rw [run_continuous_booking]
    rcases hlg : login cfg (envs 0).loginEnv 0 with ⟨res, lt⟩
    rw [hlg] at hlogin
    simp only [] at hlogin
    subst hlogin
    simp [hsetup, hlg, hloop]

lemma login_congr (cfg cfg' : Config)
    (hM : cfg'.maxRetryAttempts = cfg.maxRetryAttempts)
    (hR : cfg'.retryDelaySeconds = cfg.retryDelaySeconds)
    (env : LoginEnv) : ∀ r, login cfg' env r = login cfg env r := by
  intro r
  induction r using login.induct cfg' env with
  | case1 x h1 h2 h3 =>
    conv_lhs => rw [login]
    conv_rhs => rw [login]
    simp [h1, h2, h3]
  | case2 x h1 h2 h3 =>
    conv_lhs => rw [login]
    conv_rhs => rw [login]
    simp [h1, h2, h3]
  | case3 x h1 h2 =>
    conv_lhs => rw [login]
    conv_rhs => rw [login]
    simp [h1, h2]
  | case4 x h1 h2 ih =>
    have h2' : x < cfg.maxRetryAttempts := hM ▸ h2
    conv_lhs => rw [login]
    conv_rhs => rw [login]
    simp [h1, h2, h2', hR, ih]
  | case5 x h1 h2 =>
    have h2' : ¬ x < cfg.maxRetryAttempts := hM ▸ h2
    conv_lhs => rw [login]
    conv_rhs => rw [login]
    simp [h1, h2, h2']

lemma book_shift_congr (cfg cfg' : Config)
    (hM : cfg'.maxRetryAttempts = cfg.maxRetryAttempts)
    (hR : cfg'.retryDelaySeconds = cfg.retryDelaySeconds)
    (env : BookEnv) (t d : String) (bk : List BookedShift) :
    ∀ r, book_shift cfg' env t d bk r = book_shift cfg env t d bk r := by
  intro r
  induction r using book_shift.induct cfg' env t d bk with
  | case1 x h1 h2 =>
    conv_lhs => rw [book_shift]
    conv_rhs => rw [book_shift]
    simp [h1, h2]
  | case2 x h1 h2 h3 ih =>
    have h3' : x < cfg.maxRetryAttempts := hM ▸ h3
    conv_lhs => rw [book_shift]
    conv_rhs => rw [book_shift]
    simp [h1, h2, h3, h3', hR, ih]
  | case3 x h1 h2 h3 =>
    have h3' : ¬ x < cfg.maxRetryAttempts := hM ▸ h3
    conv_lhs => rw [book_shift]
    conv_rhs => rw [book_shift]
    simp [h1, h2, h3, h3']
  | case4 x h1 h2 ih =>
    have h2' : x < cfg.maxRetryAttempts := hM ▸ h2
    conv_lhs => rw [book_shift]
    conv_rhs => rw [book_shift]
    simp [h1, h2, h2', hR, ih]
  | case5 x h1 h2 =>
    have h2' : ¬ x < cfg.maxRetryAttempts := hM ▸ h2
    conv_lhs => rw [book_shift]
    conv_rhs => rw [book_shift]
    simp [h1, h2, h2']

lemma bookAll_congr (cfg cfg' : Config)
    (hM : cfg'.maxRetryAttempts = cfg.maxRetryAttempts)
    (hR : cfg'.retryDelaySeconds = cfg.retryDelaySeconds)
    (cenv : CycleEnv) :
    ∀ (shifts : List ShiftInfo) (bk : List BookedShift),
      bookAll cfg' cenv shifts bk = bookAll cfg cenv shifts bk := by
  intro shifts
  induction shifts with
  | nil => intro bk; rfl
  | cons s rest ih =>
    intro bk
    simp only [bookAll,
      book_shift_congr cfg cfg' hM hR (cenv.bookEnvAt s.index)
        s.title s.date bk 0, ih]

lemma cycleBody_congr (cfg cfg' : Config)
    (hM : cfg'.maxRetryAttempts = cfg.maxRetryAttempts)
    (hR : cfg'.retryDelaySeconds = cfg.retryDelaySeconds)
    (cenv : CycleEnv) (bk : List BookedShift) :
    cycleBody cfg' cenv bk = cycleBody cfg cenv bk := by
  unfold cycleBody
  cases navigate_to_shifts cenv.nav with
  | error e => rfl
  | ok nv =>
    cases get_available_shifts cenv.scrape with
    | error e => rfl
    | ok shifts => simpa using bookAll_congr cfg cfg' hM hR cenv shifts bk

lemma bookingLoop_congr (cfg cfg' : Config)
    (hM : cfg'.maxRetryAttempts = cfg.maxRetryAttempts)
    (hR : cfg'.retryDelaySeconds = cfg.retryDelaySeconds)
    (hS : cfg'.searchIntervalMinutes = cfg.searchIntervalMinutes)
    (lenv : LoopEnv) :
    ∀ (n k : Nat) (bk : List BookedShift),
      bookingLoop cfg' lenv k bk n = bookingLoop cfg lenv k bk n := by
  intro n
  induction n with
  | zero => intro k bk; rfl
  | succ n ih =>
    intro k bk
    simp only [bookingLoop, cycleBody_congr cfg cfg' hM hR, hS, ih]

lemma run_congr (cfg cfg' : Config)
    (hM : cfg'.maxRetryAttempts = cfg.maxRetryAttempts)
    (hR : cfg'.retryDelaySeconds = cfg.retryDelaySeconds)
    (hS : cfg'.searchIntervalMinutes = cfg.searchIntervalMinutes) :
    ∀ (fuel : Nat) (envs : Nat → RunEnv) (bk : List BookedShift),
      run_continuous_booking cfg' envs bk fuel
        = run_continuous_booking cfg envs bk fuel := by
  intro fuel
  induction fuel with
  | zero => intro envs bk; rfl
  | succ fuel ih =>
    intro envs bk
    simp only [run_continuous_booking,
      login_congr cfg cfg' hM hR (envs 0).loginEnv 0,
      bookingLoop_congr cfg cfg' hM hR hS (envs 0).loopEnv fuel 1 bk, ih]

lemma cycleBody_one (cfg : Config) (bk : List BookedShift) :
    (cycleBody cfg cenvOneW bk).1 = bk ++ [⟨"Unknown", "Unknown", ""⟩] := by
  have hn : navigate_to_shifts cenvOneW.nav = .ok (.clicked 0) := rfl
  have hg : get_available_shifts cenvOneW.scrape
      = .ok [buildShiftInfo cenvOneW.scrape 0 0] := rfl
  unfold cycleBody
  rw [hn, hg]
  simp only [bookAll]
  rw [book_shift]
  simp [cenvOneW, envBookOkW, buildShiftInfo, fieldOrUnknown, bookAll]

lemma bookedAfter_one (cfg : Config) :
    ∀ (n k : Nat) (bk : List BookedShift),
      (bookedAfter cfg lenvOneW k bk n).length = bk.length + n := by
  intro n
  induction n with
  | zero => intro k bk; simp [bookedAfter]
  | succ n ih =>
    intro k bk
    show (bookedAfter cfg lenvOneW (k + 1)
        (cycleBody cfg (lenvOneW.cycleAt k) bk).1 n).length = bk.length + (n + 1)
    rw [ih]
    have : (lenvOneW.cycleAt k) = cenvOneW := rfl
    rw [this, cycleBody_one]
    simp
    omega

/-- Claim C10: the configured booking cap `MAX_SHIFTS_TO_BOOK` is
imported but never consulted.  First conjunct: changing it changes
nothing about any run.  Second conjunct: in every search cycle the body
attempts to book every shift returned by `get_available_shifts`.
Third conjunct: for any configuration there is an environment under
which the number of booked shifts exceeds `MAX_SHIFTS_TO_BOOK`. -/
theorem claim_C10 :
    (∀ (cfg : Config) (m : Nat) (envs : Nat → RunEnv)
        (bk : List BookedShift) (fuel : Nat),
      run_continuous_booking { cfg with maxShiftsToBook := m } envs bk fuel
        = run_continuous_booking cfg envs bk fuel)
    ∧ (∀ (cfg : Config) (cenv : CycleEnv) (bk : List BookedShift)
        (o : NavOutcome) (shifts : List ShiftInfo),
      navigate_to_shifts cenv.nav = .ok o →
      get_available_shifts cenv.scrape = .ok shifts →
      (cycleBody cfg cenv bk).2.countP isBookAttempt = shifts.length)
    ∧ (∀ cfg : Config, ∃ (lenv : LoopEnv) (n : Nat),
      cfg.maxShiftsToBook
        < (((bookingLoop cfg lenv 1 [] n).1).booked).length) := by
  refine ⟨?_, ?_, ?_⟩
  · intro cfg m envs bk fuel
    exact run_congr cfg { cfg with maxShiftsToBook := m } rfl rfl rfl fuel envs bk
  · intro cfg cenv bk o shifts hn hg
    unfold cycleBody
    rw [hn, hg]
    exact bookAll_attempt_count cfg cenv shifts bk
  · intro cfg
    refine ⟨lenvOneW, cfg.maxShiftsToBook + 1, ?_⟩
    have h := (bookingLoop_no_stop cfg lenvOneW (fun _ => rfl) (fun _ => rfl)
      (cfg.maxShiftsToBook + 1) 1 []).1
    rw [h]
    show cfg.maxShiftsToBook
      < (bookedAfter cfg lenvOneW 1 [] (cfg.maxShiftsToBook + 1)).length
    rw [bookedAfter_one]
    omega

theorem claim_C2_witness :
    initialBookedShifts = []
      ∧ (book_shift cfgW envBookOkW "HCA" "D1" [] 0).1 = true
      ∧ (book_shift cfgW envBookOkW "HCA" "D1" [] 0).2.1 = [⟨"HCA", "D1", ""⟩]
      ∧ (book_shift cfgW envBookFailW "HCA" "D1" [] 0).1 = false
      ∧ (book_shift cfgW envBookFailW "HCA" "D1" [] 0).2.1 = [] :=
  ⟨claim_C2.1,
   by simp [book_shift, cfgW, envBookOkW],
   by simp [book_shift, cfgW, envBookOkW],
   by simp [book_shift, cfgW, envBookFailW],
   (claim_C2.2.1 cfgW envBookFailW "HCA" "D1" [] 0).2
     (by simp [book_shift, cfgW, envBookFailW])⟩

theorem claim_C3_witness :
    (login cfgW lenvEmailFailW 0).1 = .error ()
      ∧ (login cfgW lenvEmailFailW 0).2.count Ev.refresh = 2
      ∧ (book_shift cfgW envBookFailW "T" "D" [] 0).1 = false
      ∧ (book_shift cfgW envBookFailW "T" "D" [] 0).2.2.count Ev.retryLogged = 2
      ∧ (book_shift cfgW envBookScrollFailW "T" "D" [] 0).1 = false
      ∧ (book_shift cfgW envBookScrollFailW "T" "D" [] 0).2.2.count
          Ev.retryLogged = 2 :=
  ⟨(claim_C3.2.1 cfgW lenvEmailFailW (fun _ => rfl)).1,
   ((claim_C3.2.1 cfgW lenvEmailFailW (fun _ => rfl)).2).trans rfl,
   (claim_C3.2.2.2.2.1 cfgW envBookFailW "T" "D" []
     (fun _ => rfl) (fun _ => rfl)).1,
   ((claim_C3.2.2.2.2.1 cfgW envBookFailW "T" "D" []
     (fun _ => rfl) (fun _ => rfl)).2).trans rfl,
   (claim_C3.2.2.2.2.2 cfgW envBookScrollFailW "T" "D" [] (fun _ => rfl)).1,
   ((claim_C3.2.2.2.2.2 cfgW envBookScrollFailW "T" "D" []
     (fun _ => rfl)).2).trans rfl⟩

theorem claim_C4_witness :
    cycleBody cfgW cenvNavFailW [] = ([], [Ev.cycleErrorLogged])
      ∧ (bookingLoop cfgW loopNavFailW 1 [] 1).1
          = (bookingLoop cfgW loopNavFailW 2
              (cycleBody cfgW (loopNavFailW.cycleAt 1) []).1 0).1
      ∧ (bookingLoop cfgW loopNavFailW 1 [] 2).2.countP isCycleStart = 2 :=
  ⟨claim_C4.1 cfgW cenvNavFailW [] rfl,
   claim_C4.2.1 cfgW loopNavFailW 1 [] 0 rfl rfl,
   claim_C4.2.2 cfgW loopNavFailW (fun _ => rfl) (fun _ => rfl) 2 1 []⟩

theorem claim_C5_witness :
    ∃ (pre : List Ev) (bk2 : List BookedShift),
      run_continuous_booking cfgW runEnvsW [] 2
        = ((run_continuous_booking cfgW (fun i => runEnvsW (i + 1)) bk2 1).1,
           pre ++ Ev.sleepSecs 10
             :: (run_continuous_booking cfgW (fun i => runEnvsW (i + 1)) bk2 1).2)
      ∧ (∀ f2, (runEnvsW 1).setupOk = true →
          ((run_continuous_booking cfgW (fun i => runEnvsW (i + 1)) bk2
              (f2 + 1)).2).head?
            = some Ev.setupDriver) :=
  claim_C5 cfgW runEnvsW [] 1 (Or.inl rfl)

theorem claim_C8_witness :
    (bookingLoop cfgW loopNavFailW 1 [] 1).1
        = .outOfFuel (bookedAfter cfgW loopNavFailW 1 [] 1)
      ∧ (bookingLoop cfgW loopNavFailW 1 [] 1).2
          = Ev.cycleStart 1 :: (cycleBody cfgW (loopNavFailW.cycleAt 1) []).2
              ++ [Ev.sleepSecs (cfgW.searchIntervalMinutes * 60)]
              ++ (bookingLoop cfgW loopNavFailW 2
                    (cycleBody cfgW (loopNavFailW.cycleAt 1) []).1 0).2
      ∧ ∃ j, loopKiW.kiAt j = true :=
  ⟨claim_C8.1 cfgW loopNavFailW (fun _ => rfl) (fun _ => rfl) 1 1 [],
   claim_C8.2.1 cfgW loopNavFailW 1 [] 0 rfl rfl,
   claim_C8.2.2 cfgW loopKiW 2 1 [] [] [Ev.cycleStart 1] rfl⟩

theorem claim_C10_witness :
    run_continuous_booking { cfgW with maxShiftsToBook := 99 } runEnvsW [] 1
        = run_continuous_booking cfgW runEnvsW [] 1
      ∧ (cycleBody cfgW cenvOneW []).2.countP isBookAttempt = 1
      ∧ ∃ (lenv : LoopEnv) (n : Nat),
          cfgW.maxShiftsToBook
            < (((bookingLoop cfgW lenv 1 [] n).1).booked).length :=
  ⟨claim_C10.1 cfgW 99 runEnvsW [] 1,
   by
     have := claim_C10.2.1 cfgW cenvOneW [] (.clicked 0)
       [buildShiftInfo cenvOneW.scrape 0 0] rfl rfl
     simpa using this,
   claim_C10.2.2 cfgW⟩

end NHSBooker
